import Mathlib

/-
  Verification development for the sycophancy repository: a cache-first,
  rate-limited request orchestrator in front of the X API plus an LLM-derived
  score.  The four API route handlers (posts route with caching, direct
  profile route, search-first profile route, IQ route) are shallowly embedded
  as pure functions from an environment (store contents, limiter decisions,
  upstream results) and a request to a response together with a trace of the
  observable effects (store reads/writes, limiter calls, cooldown checks,
  upstream calls, LLM calls) in the order the handler performs them.
-/

namespace Syco

/-- Model of a JavaScript number as used by the routes: NaN, signed infinity,
or a finite rational.  (Doubles in the routes only ever hold small integers
or the result of `Number(string)`, so rationals are an exact model.) -/
inductive JsNum
  | nan
  | inf (pos : Bool)
  | fin (q : ℚ)
deriving DecidableEq

/-- JS `Math.max` on two numbers (NaN propagates). -/
def jsMax : JsNum → JsNum → JsNum
  | .nan, _ => .nan
  | _, .nan => .nan
  | .inf true, _ => .inf true
  | _, .inf true => .inf true
  | .inf false, b => b
  | a, .inf false => a
  | .fin a, .fin b => .fin (max a b)

/-- JS `Math.min` on two numbers (NaN propagates). -/
def jsMin : JsNum → JsNum → JsNum
  | .nan, _ => .nan
  | _, .nan => .nan
  | .inf false, _ => .inf false
  | _, .inf false => .inf false
  | .inf true, b => b
  | a, .inf true => a
  | .fin a, .fin b => .fin (min a b)

/-- JS `Number.isFinite`. -/
def isFiniteJs : JsNum → Bool
  | .fin _ => true
  | _ => false

/-- JS `Math.round` (round half toward positive infinity); only applied to
finite numbers in the routes.  `⌊q + 1/2⌋` computed on the numerator and
denominator with flooring integer division. -/
def jsRound : JsNum → Int
  | .fin q => (2 * q.num + (q.den : Int)).fdiv (2 * (q.den : Int))
  | _ => 0

/-- Numeric value of a list of decimal digit characters. -/
def digitsToNat (l : List Char) : Nat :=
  l.foldl (fun a c => a * 10 + (c.toNat - '0'.toNat)) 0

/-- ASCII whitespace as trimmed by the JS string trim (the claims only
exercise ASCII input). -/
def isWsChar (c : Char) : Bool :=
  c = ' ' || c = '\t' || c = '\n' || c = '\r' || c = '\x0b' || c = '\x0c'

/-- JS `String#trim`, computed structurally on the character list. -/
def jsTrim (s : String) : String :=
  ⟨((s.data.dropWhile isWsChar).reverse.dropWhile isWsChar).reverse⟩

/-- JS `String#toLowerCase` (ASCII), computed structurally. -/
def jsToLower (s : String) : String := ⟨s.data.map Char.toLower⟩

/-- `s.split(",")[0]` — the characters before the first comma. -/
def takeUntilComma (s : String) : String := ⟨s.data.takeWhile (fun c => c != ',')⟩

/-- `s.replace(/^@/, "")` — drop one leading at-sign. -/
def stripLeadingAt (s : String) : String :=
  match s.data with
  | '@' :: r => ⟨r⟩
  | _ => s

/-- Parse an unsigned decimal literal (digits, optionally a dot and more
digits) consuming the whole list; `none` when the list is not such a
literal. -/
def parseDecimal (l : List Char) : Option ℚ :=
  let intPart := l.takeWhile Char.isDigit
  let rest := l.dropWhile Char.isDigit
  match rest with
  | [] => if intPart.isEmpty then none else some (digitsToNat intPart : ℚ)
  | '.' :: fr =>
    let fracPart := fr.takeWhile Char.isDigit
    let rest2 := fr.dropWhile Char.isDigit
    if rest2.isEmpty && !(intPart.isEmpty && fracPart.isEmpty) then
      some (mkRat (digitsToNat intPart * 10 ^ fracPart.length + digitsToNat fracPart)
        (10 ^ fracPart.length))
    else none
  | _ => none

/-- Model of the JS `Number(string)` coercion for the string forms the routes
can meet: trimmed empty string is 0, `Infinity` forms, and optionally signed
decimal literals; every other form (hex, exponent notation, garbage) is NaN.
Exponent and hex literals are not modelled separately: no verified claim
exercises them. -/
def jsNumberOfString (s : String) : JsNum :=
  let t := jsTrim s
  if t = "" then .fin 0
  else if t = "Infinity" || t = "+Infinity" then .inf true
  else if t = "-Infinity" then .inf false
  else
    match t.toList with
    | '-' :: r => match parseDecimal r with
      | some q => .fin (-q)
      | none => .nan
    | '+' :: r => match parseDecimal r with
      | some q => .fin q
      | none => .nan
    | l => match parseDecimal l with
      | some q => .fin q
      | none => .nan

/-- Model of JS number-to-string coercion as used inside cache keys.  NaN and
infinities print their JS names; integers print exactly; the printed form of
a non-integer rational is a placeholder (no route puts a non-integer into a
key). -/
def jsNumToString : JsNum → String
  | .nan => "NaN"
  | .inf true => "Infinity"
  | .inf false => "-Infinity"
  | .fin q => if q.den = 1 then toString q.num else toString q.num ++ "." ++ toString q.den

/-- `Math.min(Math.max(Number(maxResultsParam ?? 25), 5), 100)` — the
effective max-items value of the posts route. -/
def maxResultsOf (p : Option String) : JsNum :=
  jsMin (jsMax (match p with
    | none => JsNum.fin 25
    | some s => jsNumberOfString s) (JsNum.fin 5)) (JsNum.fin 100)

/-- Does a JsNum denote a finite value in the interval `[5,100]`? -/
def inRange5to100 : JsNum → Bool
  | .fin q => decide (5 ≤ q) && decide (q ≤ 100)
  | _ => false

/-- `username.replace(/^@/, "").trim().toLowerCase()` — handle
normalization as performed by the profile and IQ routes. -/
def normalizeHandle (s : String) : String :=
  jsToLower (jsTrim (stripLeadingAt s))

/-- `request.headers.get("x-forwarded-for")?.split(",")[0]?.trim() ??
"ip:unknown"` — the per-client subject key. -/
def ipSubjectOf (xff : Option String) : String :=
  match xff with
  | none => "ip:unknown"
  | some s => jsTrim (takeUntilComma s)

/-- JS regex word character (`\w`): ASCII letters, digits, underscore. -/
def isWordChar (c : Char) : Bool := c.isAlphanum || c = '_'

/-- Word boundary after a digit run: end of string or a non-word char. -/
def boundaryAfter : List Char → Bool
  | [] => true
  | c :: _ => !isWordChar c

/-- Numeric value of one digit character. -/
def digitVal (c : Char) : Nat := c.toNat - '0'.toNat

/-- Try to match exactly three digits followed by a word boundary. -/
def try3 : List Char → Option Nat
  | c1 :: c2 :: c3 :: rest =>
    if c1.isDigit && c2.isDigit && c3.isDigit && boundaryAfter rest then
      some (digitVal c1 * 100 + digitVal c2 * 10 + digitVal c3)
    else none
  | _ => none

/-- Try to match exactly two digits followed by a word boundary. -/
def try2 : List Char → Option Nat
  | c1 :: c2 :: rest =>
    if c1.isDigit && c2.isDigit && boundaryAfter rest then
      some (digitVal c1 * 10 + digitVal c2)
    else none
  | _ => none

/-- At a fixed start position, the greedy `\d{2,3}\b` attempt (3 digits
first, then 2). -/
def tryHere (l : List Char) : Option Nat :=
  (try3 l).orElse (fun _ => try2 l)

/-- Left-to-right scan of `/\b(\d{2,3})\b/`: at each position with a word
boundary before it, attempt the greedy digit match. -/
def scanMatch : Bool → List Char → Option Nat
  | _, [] => none
  | prevWord, c :: rest =>
    match (if prevWord then none else tryHere (c :: rest)) with
    | some n => some n
    | none => scanMatch (isWordChar c) rest

/-- `rawText.match(/\b(\d{2,3})\b/)` of the IQ route's fallback extraction,
returning the numeric value of the first match. -/
def firstNumWord (s : String) : Option Nat :=
  scanMatch false s.toList

/-- Model of a JSON value as returned by the external `JSON.parse`: the IQ
route only ever reads the `iq` and `explanation` properties, so an object is
modelled by those two optional fields (any other property is never
consulted). -/
inductive JsVal
  | jnum (q : ℚ)
  | jstr (s : String)
  | jbool (b : Bool)
  | jnull
  | jobj (iqField explField : Option JsVal)

/-- `parsed?.iq` — property access with optional chaining. -/
def jsGetIq : JsVal → Option JsVal
  | .jobj i _ => i
  | _ => none

/-- `parsed?.explanation`. -/
def jsGetExpl : JsVal → Option JsVal
  | .jobj _ e => e
  | _ => none

/-- JS `Number(x)` on a possibly-undefined JSON value. -/
def numberOfOptVal : Option JsVal → JsNum
  | none => .nan
  | some (.jnum q) => .fin q
  | some (.jstr s) => jsNumberOfString s
  | some (.jbool b) => .fin (if b then 1 else 0)
  | some .jnull => .fin 0
  | some (.jobj _ _) => .nan

/-- `Math.max(55, Math.min(145, n))` — the IQ clamp. -/
def clampIq (n : Int) : Int := max 55 (min 145 n)

/-- The IQ route's score extraction: strict parse of the model output
(`parsed` is the result of the external `JSON.parse`, `none` meaning it
threw), clamping the rounded `iq` field when it is a finite number; on parse
failure, fallback extraction of the first 2-or-3-digit word from the raw
text, also clamped.  Returns the optional score and optional explanation. -/
def extractIq (parsed : Option JsVal) (rawText : String) : Option Int × Option String :=
  match parsed with
  | some v =>
    let candidate := numberOfOptVal (jsGetIq v)
    let iq := if isFiniteJs candidate then some (clampIq (jsRound candidate)) else none
    let expl := match jsGetExpl v with
      | some (.jstr s) => some s
      | _ => none
    (iq, expl)
  | none =>
    match firstNumWord rawText with
    | some n => (some (clampIq (Int.ofNat n)), none)
    | none => (none, none)

/-- The three sliding-window limiter classes of `src/lib/ratelimit`. -/
inductive LimiterClass
  | ip
  | user
  | global
deriving DecidableEq

/-- The three upstream X API operations the routes invoke. -/
inductive UpOp
  | userLookup
  | timeline
  | search
deriving DecidableEq

/-- The cooldown key belonging to an upstream operation. -/
def cdKeyOfOp : UpOp → String
  | .userLookup => "cooldown:x:v2UserLookup"
  | .timeline => "cooldown:x:v2UserTimeline"
  | .search => "cooldown:x:v2TweetsSearchRecent"

/-- A value held by the shared store: the routes only ever write serialized
string bodies and numeric cooldown seconds. -/
inductive RVal
  | str (s : String)
  | num (n : Int)
deriving DecidableEq

/-- Observable effects of a route handler, in execution order. -/
inductive Ev
  | cacheGet (key : String)
  | rateLimit (cls : LimiterClass) (subject : String)
  | cooldownCheck (key : String)
  | upstream (op : UpOp)
  | llmCall
  | cacheSet (key : String)
  | cooldownTrip (key : String)
deriving DecidableEq

/-- Exceptions that can reach a route's catch block: a 429
`ApiResponseError` with an optional advertised reset epoch, a thrown store
client error, or any other `Error` with its message. -/
inductive Exn
  | api429 (reset : Option Nat)
  | storeFail
  | generic (msg : String)
deriving DecidableEq

/-- The fields of an upstream user record the routes consult. -/
structure XUser where
  id : String
  name : String
  username : String
  profile_image_url : Option String
deriving DecidableEq

/-- The fields of an upstream tweet the IQ route consults. -/
structure Tweet where
  id : String
  text : String
deriving DecidableEq

/-- Result of the recent-search upstream call: the tweets array and the
hydrated `includes.users` array. -/
structure SearchRes where
  tweets : List Tweet
  users : List XUser
deriving DecidableEq

/-- Outcome of an upstream X API call: a 429 with optional reset epoch, any
other error with a message, or success. -/
inductive UpFail
  | rate (reset : Option Nat)
  | err (msg : String)
deriving DecidableEq

/-- Per-request environment: configuration, the behavior of the shared
store, the limiter decisions, and the upstream collaborators.  Store reads
return `Except.error ()` when the store client throws; `setFails k` says a
write to key `k` throws. -/
structure Env where
  hasRedis : Bool
  prod : Bool
  hasBearer : Bool
  hasOpenAI : Bool
  now : Nat
  redisGet : String → Except Unit (Option RVal)
  setFails : String → Bool
  allow : LimiterClass → String → Bool
  userLookup : String → Except UpFail (Option XUser)
  timeline : String → JsNum → Except UpFail String
  search : String → Except UpFail SearchRes
  llm : Except String String
  jsonParse : String → Option JsVal

/-- An inbound request: the `username` and `max_results` query parameters
and the `x-forwarded-for` header. -/
structure Req where
  username : Option String
  maxResultsParam : Option String
  xff : Option String
deriving DecidableEq

/-- An outbound response: status, body, and the headers the claims talk
about (`x-cache`, `retry-after`, `x-upstream-rate-limited`). -/
structure Resp where
  status : Nat
  body : String
  xcache : Option String
  retryAfter : Option Int
  upstreamFlag : Bool
deriving DecidableEq

/-- JS truthiness of an optional store value (`if (cached)`). -/
def truthyR : Option RVal → Bool
  | none => false
  | some (.str s) => s ≠ ""
  | some (.num n) => n ≠ 0

/-- Body served from a cached value: a string verbatim, anything else via
stringification. -/
def bodyOfCached : Option RVal → String
  | some (.str s) => s
  | some (.num n) => toString n
  | none => ""

/-- `cooldownSeconds && cooldownSeconds > 0` — an active cooldown and its
remaining seconds.  The cooldown keys only ever hold the numeric value the
trip handler wrote. -/
def cooldownVal : Option RVal → Option Int
  | some (.num n) => if 0 < n then some n else none
  | _ => none

/-- A limiter call: the limiter factories return a no-op always-allow
limiter when the store env vars are absent. -/
def limitCall (env : Env) (cls : LimiterClass) (subject : String) : Bool :=
  if env.hasRedis then env.allow cls subject else true

/-- `retryAfterSeconds`: the upstream's advertised reset minus now, at least
1; fixed fallback 60 when no reset is advertised. -/
def retryAfterOf (now : Nat) (reset : Option Nat) : Int :=
  match reset with
  | some r => max 1 ((r : Int) - (now : Int))
  | none => 60

/-- `JSON.stringify({ error: msg })`. -/
def jsonError (msg : String) : String :=
  "\x7b\"error\":\"" ++ msg ++ "\"\x7d"

/-- Placeholder for `new Date(reset * 1000).toISOString()` (external Date
formatting; no claim inspects the text). -/
def isoOfEpoch (r : Nat) : String := "iso:" ++ toString r

/-- `JSON.stringify({ error: "X API rate limited", resetAt: resetIso })`;
`resetAt` is omitted by stringify when the reset is unknown. -/
def rateLimitedBody (reset : Option Nat) : String :=
  match reset with
  | some r => "\x7b\"error\":\"X API rate limited\",\"resetAt\":\"" ++ isoOfEpoch r ++ "\"\x7d"
  | none => "\x7b\"error\":\"X API rate limited\"\x7d"

/-- The message of the error thrown by `getXReadOnlyClient` without a
bearer token. -/
def bearerMsg : String :=
  "Missing X API bearer token. Set X_BEARER_TOKEN (preferred) or TWITTER_BEARER_TOKEN in your environment."

/-- The message of the error thrown by `getOpenAIClient` without a key. -/
def openaiMsg : String :=
  "Missing OpenAI API key. Set OPENAI_KEY or OPENAI_API_KEY in your environment."

/-- The profile cache key, shared by both profile route variants and the IQ
route's hydration write. -/
def profileCacheKey (handle : String) : String := "cache:xprofile:" ++ handle

/-- The IQ route's per-handle shortcut cache key. -/
def iqLatestKey (handle : String) : String := "cache:iq:latest:" ++ handle

/-- The IQ route's canonical per-tweet cache key. -/
def iqTweetKey (handle tweetId : String) : String :=
  "cache:iq:" ++ handle ++ ":" ++ tweetId

/-- `from:HANDLE -is:retweet -is:reply` — the recent-search query. -/
def searchQuery (handle : String) : String :=
  "from:" ++ handle ++ " -is:retweet -is:reply"

/-- Stand-in for `JSON.stringify({ user, tweets, meta, includes })` of the
posts route (the exact serialization is opaque to every claim; it is
deterministic in its inputs). -/
def serializePosts (u : XUser) (tl : String) : String :=
  "posts(" ++ u.id ++ "|" ++ u.username ++ "|" ++ tl ++ ")"

/-- Stand-in for `JSON.stringify({ user })` of the profile routes. -/
def serializeUser (u : XUser) : String :=
  "profile(" ++ u.id ++ "|" ++ u.username ++ ")"

/-- Stand-in for the IQ route's serialized success body. -/
def serializeIq (handle tweetId : String) (author : Option XUser) (iq : Int)
    (expl : Option String) (raw : String) : String :=
  "iq(" ++ handle ++ "|" ++ tweetId ++ "|" ++ (match author with
    | some a => a.id
    | none => "") ++ "|" ++ toString iq ++ "|" ++ expl.getD "" ++ "|" ++ raw ++ ")"

/-- Stand-in for the profile body the IQ route hydrates
(`JSON.stringify({ user: bodyObj.user })`). -/
def serializeIqProfile (handle : String) (author : Option XUser) : String :=
  "profile-from-iq(" ++ handle ++ "|" ++ (match author with
    | some a => a.id
    | none => "") ++ ")"

/-- Prepend already-performed events to a stage's result: each stage
function below returns the response together with the events from that
stage onward, and its caller prepends its own earlier events. -/
def withPre (es : List Ev) (r : Resp × List Ev) : Resp × List Ev := (r.1, es ++ r.2)

@[simp] theorem withPre_fst (es : List Ev) (r : Resp × List Ev) : (withPre es r).1 = r.1 := rfl

@[simp] theorem withPre_snd (es : List Ev) (r : Resp × List Ev) : (withPre es r).2 = es ++ r.2 := rfl

namespace XPosts

/-- `cache:xposts:USERNAME:MAXRESULTS` — keyed by the RAW username and the
effective max-results value. -/
def cacheKey (username : String) (mrp : Option String) : String :=
  "cache:xposts:" ++ username ++ ":" ++ jsNumToString (maxResultsOf mrp)

/-- The posts route's catch block: a 429 `ApiResponseError` trips the
timeline cooldown key (write swallowed by its own try/catch) and returns
the upstream-rate-limited response; everything else returns 500. -/
def onError (env : Env) : Exn → Resp × List Ev
  | .api429 reset =>
    (⟨429, rateLimitedBody reset, none, some (retryAfterOf env.now reset), true⟩,
      if env.hasRedis then [Ev.cooldownTrip "cooldown:x:v2UserTimeline"] else [])
  | .storeFail => (⟨500, jsonError "store error", none, none, false⟩, [])
  | .generic msg => (⟨500, jsonError msg, none, none, false⟩, [])

/-- Timeline call and cache write (steps after the profile-image writes). -/
def afterImg (env : Env) (req : Req) (username key : String) (user : XUser) :
    Resp × List Ev :=
  withPre [Ev.upstream .timeline]
    (match env.timeline user.id (maxResultsOf req.maxResultsParam) with
     | .error (.rate reset) => onError env (.api429 reset)
     | .error (.err msg) => onError env (.generic msg)
     | .ok tl =>
       let body := serializePosts user tl
       if env.hasRedis then
         if env.setFails key then withPre [Ev.cacheSet key] (onError env .storeFail)
         else (⟨200, body, none, none, false⟩, [Ev.cacheSet key])
       else (⟨200, body, none, none, false⟩, []))

/-- Profile-image URL caching (`Promise.all` of two unprotected writes),
run between the user lookup and the timeline call. -/
def afterLookup (env : Env) (req : Req) (username key : String) (user : XUser) :
    Resp × List Ev :=
  match user.profile_image_url with
  | some url =>
    if env.hasRedis && url != "" then
      let k1 := "user:profileImageUrl:" ++ username
      let k2 := "user:profileImageUrlById:" ++ user.id
      if env.setFails k1 || env.setFails k2 then
        withPre [Ev.cacheSet k1, Ev.cacheSet k2] (onError env .storeFail)
      else withPre [Ev.cacheSet k1, Ev.cacheSet k2] (afterImg env req username key user)
    else afterImg env req username key user
  | none => afterImg env req username key user

/-- User lookup by raw username; missing user or empty id is 404. -/
def afterClient (env : Env) (req : Req) (username key : String) : Resp × List Ev :=
  withPre [Ev.upstream .userLookup]
    (match env.userLookup username with
     | .error (.rate reset) => onError env (.api429 reset)
     | .error (.err msg) => onError env (.generic msg)
     | .ok none => (⟨404, jsonError "user not found", none, none, false⟩, [])
     | .ok (some user) =>
       if user.id = "" then (⟨404, jsonError "user not found", none, none, false⟩, [])
       else afterLookup env req username key user)

/-- Per-username limiter (raw username) and client construction. -/
def afterCooldown (env : Env) (req : Req) (username key : String) : Resp × List Ev :=
  withPre [Ev.rateLimit .user username]
    (if limitCall env .user username then
      if env.hasBearer then afterClient env req username key
      else onError env (.generic bearerMsg)
    else (⟨429, jsonError "Too many requests for this username", none, none, false⟩, []))

/-- Upstream cooldown check (timeline key), run right after the IP limiter
and BEFORE the per-username limiter. -/
def afterIp (env : Env) (req : Req) (username key : String) : Resp × List Ev :=
  if env.hasRedis then
    match env.redisGet "cooldown:x:v2UserTimeline" with
    | .error _ => withPre [Ev.cooldownCheck "cooldown:x:v2UserTimeline"] (onError env .storeFail)
    | .ok v =>
      withPre [Ev.cooldownCheck "cooldown:x:v2UserTimeline"]
        (match cooldownVal v with
         | some n =>
           (⟨429, jsonError "Upstream X API temporarily rate limited. Please retry later.",
             none, some n, false⟩, [])
         | none => afterCooldown env req username key)
  else afterCooldown env req username key

/-- Per-IP limiter, the first check after the cache. -/
def afterCache (env : Env) (req : Req) (username key : String) : Resp × List Ev :=
  let ip := ipSubjectOf req.xff
  withPre [Ev.rateLimit .ip ip]
    (if limitCall env .ip ip then afterIp env req username key
     else (⟨429, jsonError "Too many requests (IP rate limit)", none, none, false⟩, []))

/-- GET `/api/x/posts?username=:handle&max_results=25` (the cached variant):
cache check, per-IP limit, timeline-cooldown check, per-username limit, user
lookup, profile-image writes, timeline fetch, cache write. -/
def GET (env : Env) (req : Req) : Resp × List Ev :=
  match req.username with
  | none => (⟨400, jsonError "username is required", none, none, false⟩, [])
  | some username =>
    let key := cacheKey username req.maxResultsParam
    if env.hasRedis then
      match env.redisGet key with
      | .error _ => withPre [Ev.cacheGet key] (onError env .storeFail)
      | .ok cached =>
        if truthyR cached then
          (⟨200, bodyOfCached cached, some "HIT", none, false⟩, [Ev.cacheGet key])
        else withPre [Ev.cacheGet key] (afterCache env req username key)
    else afterCache env req username key

end XPosts

namespace XProfile

/-- The direct profile route's catch block: a 429 trips the user-lookup
cooldown key (write swallowed), everything else is 500. -/
def onError (env : Env) : Exn → Resp × List Ev
  | .api429 reset =>
    (⟨429, rateLimitedBody reset, none, some (retryAfterOf env.now reset), true⟩,
      if env.hasRedis then [Ev.cooldownTrip "cooldown:x:v2UserLookup"] else [])
  | .storeFail => (⟨500, jsonError "store error", none, none, false⟩, [])
  | .generic msg => (⟨500, jsonError msg, none, none, false⟩, [])

/-- User lookup by normalized handle, then the unprotected cache write. -/
def afterCooldown (env : Env) (handle key : String) : Resp × List Ev :=
  if env.hasBearer then
    withPre [Ev.upstream .userLookup]
      (match env.userLookup handle with
       | .error (.rate reset) => onError env (.api429 reset)
       | .error (.err msg) => onError env (.generic msg)
       | .ok none => (⟨404, jsonError "user not found", none, none, false⟩, [])
       | .ok (some user) =>
         let body := serializeUser user
         if env.hasRedis then
           if env.setFails key then withPre [Ev.cacheSet key] (onError env .storeFail)
           else (⟨200, body, some "MISS", none, false⟩, [Ev.cacheSet key])
         else (⟨200, body, some "MISS", none, false⟩, []))
  else onError env (.generic bearerMsg)

/-- The user-lookup cooldown check, after both limiter checks. -/
def afterLimits (env : Env) (handle key : String) : Resp × List Ev :=
  if env.hasRedis then
    match env.redisGet "cooldown:x:v2UserLookup" with
    | .error _ => withPre [Ev.cooldownCheck "cooldown:x:v2UserLookup"] (onError env .storeFail)
    | .ok v =>
      withPre [Ev.cooldownCheck "cooldown:x:v2UserLookup"]
        (match cooldownVal v with
         | some n =>
           (⟨429, jsonError "Upstream X API temporarily rate limited. Please retry later.",
             none, some n, false⟩, [])
         | none => afterCooldown env handle key)
  else afterCooldown env handle key

/-- Per-IP limiter, then per-username limiter. -/
def afterCache (env : Env) (req : Req) (handle key : String) : Resp × List Ev :=
  let ip := ipSubjectOf req.xff
  withPre [Ev.rateLimit .ip ip]
    (if limitCall env .ip ip then
      withPre [Ev.rateLimit .user handle]
        (if limitCall env .user handle then afterLimits env handle key
         else (⟨429, jsonError "Too many requests for this username", none, none, false⟩, []))
     else (⟨429, jsonError "Too many requests (IP rate limit)", none, none, false⟩, []))

/-- GET `/api/x/profile?username=:handle` (direct-lookup variant): cache
check (a hit also refreshes the entry inside its own try/catch), per-IP and
per-username limits, lookup-cooldown check, user lookup, cache write.  No
global limiter, no fail-closed production check. -/
def GET (env : Env) (req : Req) : Resp × List Ev :=
  match req.username with
  | none => (⟨400, jsonError "username is required", none, none, false⟩, [])
  | some username =>
    let handle := normalizeHandle username
    let key := profileCacheKey handle
    if env.hasRedis then
      match env.redisGet key with
      | .error _ => withPre [Ev.cacheGet key] (onError env .storeFail)
      | .ok cached =>
        if truthyR cached then
          (⟨200, bodyOfCached cached, some "HIT", none, false⟩,
            [Ev.cacheGet key, Ev.cacheSet key])
        else withPre [Ev.cacheGet key] (afterCache env req handle key)
    else afterCache env req handle key

end XProfile

namespace XProfileSearch

/-- The search-first profile route's catch block: on a 429 the tripped
cooldown key follows the `lastEndpoint` marker (`search` trips the search
key; anything else, including no endpoint reached, trips the lookup key);
the write is swallowed by its own try/catch. -/
def onError (env : Env) (lastEndpoint : Option UpOp) : Exn → Resp × List Ev
  | .api429 reset =>
    let key := match lastEndpoint with
      | some .search => "cooldown:x:v2TweetsSearchRecent"
      | _ => "cooldown:x:v2UserLookup"
    (⟨429, rateLimitedBody reset, none, some (retryAfterOf env.now reset), true⟩,
      if env.hasRedis then [Ev.cooldownTrip key] else [])
  | .storeFail => (⟨500, jsonError "store error", none, none, false⟩, [])
  | .generic msg => (⟨500, jsonError msg, none, none, false⟩, [])

/-- The fallback direct lookup and its cache write. -/
def doLookup (env : Env) (handle key : String) : Resp × List Ev :=
  withPre [Ev.upstream .userLookup]
    (match env.userLookup handle with
     | .error (.rate reset) => onError env (some .userLookup) (.api429 reset)
     | .error (.err msg) => onError env (some .userLookup) (.generic msg)
     | .ok none => (⟨404, jsonError "user not found", none, none, false⟩, [])
     | .ok (some user) =>
       let body := serializeUser user
       if env.hasRedis then
         if env.setFails key then
           withPre [Ev.cacheSet key] (onError env (some .userLookup) .storeFail)
         else (⟨200, body, some "MISS", none, false⟩, [Ev.cacheSet key])
       else (⟨200, body, some "MISS", none, false⟩, []))

/-- Fallback path when the search had no usable author: lookup-cooldown
check, then the lookup itself. -/
def fallbackLookup (env : Env) (handle key : String) : Resp × List Ev :=
  if env.hasRedis then
    match env.redisGet "cooldown:x:v2UserLookup" with
    | .error _ =>
      withPre [Ev.cooldownCheck "cooldown:x:v2UserLookup"] (onError env (some .search) .storeFail)
    | .ok v =>
      withPre [Ev.cooldownCheck "cooldown:x:v2UserLookup"]
        (match cooldownVal v with
         | some n =>
           (⟨429, jsonError "Upstream X API temporarily rate limited. Please retry later.",
             none, some n, false⟩, [])
         | none => doLookup env handle key)
  else doLookup env handle key

/-- Global limiter (after client construction and the search-cooldown
check), then the recent search; a hydrated author is cached and served,
otherwise fall back to direct lookup. -/
def afterCooldown (env : Env) (handle key : String) : Resp × List Ev :=
  if env.hasBearer then
    withPre [Ev.rateLimit .global "global"]
      (if limitCall env .global "global" then
        withPre [Ev.upstream .search]
          (match env.search (searchQuery handle) with
           | .error (.rate reset) => onError env (some .search) (.api429 reset)
           | .error (.err msg) => onError env (some .search) (.generic msg)
           | .ok res =>
             match res.users.head? with
             | some author =>
               let body := serializeUser author
               if env.hasRedis then
                 if env.setFails key then
                   withPre [Ev.cacheSet key] (onError env (some .search) .storeFail)
                 else (⟨200, body, some "MISS", none, false⟩, [Ev.cacheSet key])
               else (⟨200, body, some "MISS", none, false⟩, [])
             | none => fallbackLookup env handle key)
       else (⟨429, jsonError "Too many requests (service busy)", none, none, false⟩, []))
  else onError env none (.generic bearerMsg)

/-- Per-IP limiter, per-username limiter, then the search-cooldown check. -/
def afterFailClosed (env : Env) (req : Req) (handle key : String) : Resp × List Ev :=
  let ip := ipSubjectOf req.xff
  withPre [Ev.rateLimit .ip ip]
    (if limitCall env .ip ip then
      withPre [Ev.rateLimit .user handle]
        (if limitCall env .user handle then
          if env.hasRedis then
            match env.redisGet "cooldown:x:v2TweetsSearchRecent" with
            | .error _ =>
              withPre [Ev.cooldownCheck "cooldown:x:v2TweetsSearchRecent"]
                (onError env none .storeFail)
            | .ok v =>
              withPre [Ev.cooldownCheck "cooldown:x:v2TweetsSearchRecent"]
                (match cooldownVal v with
                 | some n =>
                   (⟨429,
                     jsonError "Upstream X API temporarily rate limited. Please retry later.",
                     none, some n, false⟩, [])
                 | none => afterCooldown env handle key)
          else afterCooldown env handle key
         else (⟨429, jsonError "Too many requests for this username", none, none, false⟩, []))
     else (⟨429, jsonError "Too many requests (IP rate limit)", none, none, false⟩, []))

/-- GET `/api/x/profile?username=:handle` (search-first variant): cache
check, fail-closed production check, per-IP and per-username limits,
search-cooldown check, global limit, recent search with direct-lookup
fallback. -/
def GET (env : Env) (req : Req) : Resp × List Ev :=
  match req.username with
  | none => (⟨400, jsonError "username is required", none, none, false⟩, [])
  | some username =>
    let handle := normalizeHandle username
    let key := profileCacheKey handle
    if env.hasRedis then
      match env.redisGet key with
      | .error _ => withPre [Ev.cacheGet key] (onError env none .storeFail)
      | .ok cached =>
        if truthyR cached then
          (⟨200, bodyOfCached cached, some "HIT", none, false⟩, [Ev.cacheGet key])
        else withPre [Ev.cacheGet key] (afterFailClosed env req handle key)
    else
      if env.prod then
        (⟨503, jsonError "Service unavailable: caching and rate limits disabled",
          none, none, false⟩, [])
      else afterFailClosed env req handle key

end XProfileSearch

namespace XIq

/-- The IQ route's catch block: a 429 (only the recent-search call can raise
an `ApiResponseError`) trips the search cooldown key (write swallowed);
everything else is 500. -/
def onError (env : Env) : Exn → Resp × List Ev
  | .api429 reset =>
    (⟨429, rateLimitedBody reset, none, some (retryAfterOf env.now reset), true⟩,
      if env.hasRedis then [Ev.cooldownTrip "cooldown:x:v2TweetsSearchRecent"] else [])
  | .storeFail => (⟨500, jsonError "store error", none, none, false⟩, [])
  | .generic msg => (⟨500, jsonError msg, none, none, false⟩, [])

/-- After a successful score extraction: the `Promise.all` of unprotected
cache writes (canonical per-tweet entry, per-handle shortcut, profile
hydration, and the conditional profile-image helpers), then the success
response. -/
def finishIq (env : Env) (handle : String) (latest : Tweet) (author : Option XUser)
    (iq : Int) (expl : Option String) (raw : String) : Resp × List Ev :=
  let body := serializeIq handle latest.id author iq expl raw
  if env.hasRedis then
    let imgK1 : Option String := match author with
      | some a => match a.profile_image_url with
        | some url => if url != "" then some ("user:profileImageUrl:" ++ handle) else none
        | none => none
      | none => none
    let imgK2 : Option String := match author with
      | some a => match a.profile_image_url with
        | some url => if url != "" && a.id != "" then
            some ("user:profileImageUrlById:" ++ a.id) else none
        | none => none
      | none => none
    let keys := [iqTweetKey handle latest.id, iqLatestKey handle, profileCacheKey handle] ++
      imgK1.toList ++ imgK2.toList
    if keys.any env.setFails then withPre (keys.map Ev.cacheSet) (onError env .storeFail)
    else (⟨200, body, some "MISS", none, false⟩, keys.map Ev.cacheSet)
  else (⟨200, body, some "MISS", none, false⟩, [])

/-- The LLM call and score extraction; a failed derivation is a distinct 502
and performs no cache write. -/
def afterTweetCache (env : Env) (handle : String) (latest : Tweet)
    (author : Option XUser) : Resp × List Ev :=
  if env.hasOpenAI then
    withPre [Ev.llmCall]
      (match env.llm with
       | .error msg => onError env (.generic msg)
       | .ok content =>
         let rawText := jsTrim content
         match extractIq (env.jsonParse rawText) rawText with
         | (none, _) =>
           (⟨502, jsonError "Failed to extract IQ from model output", none, none, false⟩, [])
         | (some iq, expl) => finishIq env handle latest author iq expl rawText)
  else onError env (.generic openaiMsg)

/-- Canonical per-tweet cache check after the search succeeded. -/
def afterSearch (env : Env) (handle : String) (latest : Tweet)
    (author : Option XUser) : Resp × List Ev :=
  let ckey := iqTweetKey handle latest.id
  if env.hasRedis then
    match env.redisGet ckey with
    | .error _ => withPre [Ev.cacheGet ckey] (onError env .storeFail)
    | .ok cached =>
      if truthyR cached then
        (⟨200, bodyOfCached cached, some "HIT", none, false⟩, [Ev.cacheGet ckey])
      else withPre [Ev.cacheGet ckey] (afterTweetCache env handle latest author)
  else afterTweetCache env handle latest author

/-- Client construction and the recent search; no tweet is a 404. -/
def afterCd (env : Env) (handle : String) : Resp × List Ev :=
  if env.hasBearer then
    withPre [Ev.upstream .search]
      (match env.search (searchQuery handle) with
       | .error (.rate reset) => onError env (.api429 reset)
       | .error (.err msg) => onError env (.generic msg)
       | .ok res =>
         match res.tweets.head? with
         | none => (⟨404, jsonError "no recent posts", none, none, false⟩, [])
         | some latest => afterSearch env handle latest res.users.head?)
  else onError env (.generic bearerMsg)

/-- Search-cooldown check, after all three limiter checks. -/
def afterLimits (env : Env) (handle : String) : Resp × List Ev :=
  if env.hasRedis then
    match env.redisGet "cooldown:x:v2TweetsSearchRecent" with
    | .error _ =>
      withPre [Ev.cooldownCheck "cooldown:x:v2TweetsSearchRecent"] (onError env .storeFail)
    | .ok v =>
      withPre [Ev.cooldownCheck "cooldown:x:v2TweetsSearchRecent"]
        (match cooldownVal v with
         | some n =>
           (⟨429, jsonError "Upstream X API temporarily rate limited. Please retry later.",
             none, some n, false⟩, [])
         | none => afterCd env handle)
  else afterCd env handle

/-- The three limiter calls issued together by `Promise.all` (per-IP,
per-handle, global, in array order), then checked in that order. -/
def afterCache (env : Env) (req : Req) (handle : String) : Resp × List Ev :=
  let ip := ipSubjectOf req.xff
  withPre [Ev.rateLimit .ip ip, Ev.rateLimit .user handle, Ev.rateLimit .global "global"]
    (if !(limitCall env .ip ip) then
      (⟨429, jsonError "Too many requests (IP rate limit)", none, none, false⟩, [])
    else if !(limitCall env .user handle) then
      (⟨429, jsonError "Too many requests for this username", none, none, false⟩, [])
    else if !(limitCall env .global "global") then
      (⟨429, jsonError "Too many requests (service busy)", none, none, false⟩, [])
    else afterLimits env handle)

/-- GET `/api/x/iq?username=:handle`: fail-closed production check, direct
per-handle cache check, the three limiters, search-cooldown check, recent
search, per-tweet cache check, LLM call, extraction, cache writes. -/
def GET (env : Env) (req : Req) : Resp × List Ev :=
  match req.username with
  | none => (⟨400, jsonError "username is required", none, none, false⟩, [])
  | some username =>
    let handle := normalizeHandle username
    if !env.hasRedis && env.prod then
      (⟨503, jsonError "Service unavailable: caching and rate limits disabled",
        none, none, false⟩, [])
    else
      let dkey := iqLatestKey handle
      if env.hasRedis then
        match env.redisGet dkey with
        | .error _ => withPre [Ev.cacheGet dkey] (onError env .storeFail)
        | .ok cached =>
          if truthyR cached then
            (⟨200, bodyOfCached cached, some "HIT", none, false⟩, [Ev.cacheGet dkey])
          else withPre [Ev.cacheGet dkey] (afterCache env req handle)
      else afterCache env req handle

end XIq

/-- Is this event a rate-limiter call of the given class? -/
def isRL (cls : LimiterClass) : Ev → Bool
  | .rateLimit c _ => c == cls
  | _ => false

/-- Is this event any rate-limiter call? -/
def isAnyRL : Ev → Bool
  | .rateLimit _ _ => true
  | _ => false

/-- Is this event a cooldown check? -/
def isCdCheck : Ev → Bool
  | .cooldownCheck _ => true
  | _ => false

/-- Is this event a cooldown check on the given key? -/
def isCdCheckKey (k : String) : Ev → Bool
  | .cooldownCheck k2 => k2 == k
  | _ => false

/-- Is this event an upstream call? -/
def isUp : Ev → Bool
  | .upstream _ => true
  | _ => false

/-- Is this event an upstream call of the given operation? -/
def isUpOp (op : UpOp) : Ev → Bool
  | .upstream o => o == op
  | _ => false

/-- Is this event a cache write? -/
def isSet : Ev → Bool
  | .cacheSet _ => true
  | _ => false

/-- Is this event the LLM call? -/
def isLlm : Ev → Bool
  | .llmCall => true
  | _ => false

/-- `sepOrder p q t` holds when every `p`-event of the trace occurs strictly
before every `q`-event: after any `q`-event no `p`-event appears. -/
def sepOrder (p q : Ev → Bool) : List Ev → Bool
  | [] => true
  | e :: t => (if q e then t.all (fun x => !p x) else true) && sepOrder p q t

/-- Does some event of the trace satisfy `p`? -/
def hasEv (p : Ev → Bool) (t : List Ev) : Bool := t.any p

/-- Every cooldown trip in the trace names the cooldown key of the most
recently invoked upstream operation (and some operation was invoked). -/
def tripsMatchInvoked (last : Option UpOp) : List Ev → Bool
  | [] => true
  | (Ev.upstream op) :: t => tripsMatchInvoked (some op) t
  | (Ev.cooldownTrip k) :: t =>
    (match last with
      | some op => k == cdKeyOfOp op
      | none => false) && tripsMatchInvoked last t
  | _ :: t => tripsMatchInvoked last t

/-- Every cooldown trip in the trace uses the given key. -/
def tripsOnly (k : String) (t : List Ev) : Bool :=
  t.all (fun e => match e with
    | .cooldownTrip k2 => k2 == k
    | _ => true)

/-- Every per-IP limiter call in the trace carries the given subject. -/
def ipSubjectsAre (subj : String) (t : List Ev) : Bool :=
  t.all (fun e => match e with
    | .rateLimit .ip s => s == subj
    | _ => true)

/-- The protection machinery is untouched: no limiter call, no cooldown
check, no upstream call in the trace. -/
def noProtection (t : List Ev) : Bool :=
  !(hasEv isAnyRL t) && !(hasEv isCdCheck t) && !(hasEv isUp t)

/-- The ordering property claimed by the spec for a cache-missing request:
per-IP before the other limiters, all limiter calls before any cooldown
check, every cooldown check before any upstream call, and — when a cooldown
check happens — all three limiter classes were exercised. -/
def specOrder (t : List Ev) : Bool :=
  sepOrder (isRL .ip) (isRL .user) t &&
  sepOrder (isRL .ip) (isRL .global) t &&
  sepOrder isAnyRL isCdCheck t &&
  sepOrder isCdCheck isUp t &&
  (!(hasEv isCdCheck t) ||
    (hasEv (isRL .ip) t && hasEv (isRL .user) t && hasEv (isRL .global) t))

/-- How a route's stage automaton treats one event: irrelevant to the
ordering claim, forbidden in this route, or belonging to a numbered
pipeline stage. -/
inductive StageRes
  | skip
  | never
  | stage (n : Nat)

/-- `phasedOK f ph t` scans the trace and checks that the stage numbers of
the relevant events never decrease (starting at phase `ph`) and that no
forbidden event occurs: the positional ordering of the pipeline's checks. -/
def phasedOK (f : Ev → StageRes) : Nat → List Ev → Bool
  | _, [] => true
  | ph, e :: t =>
    match f e with
    | .skip => phasedOK f ph t
    | .never => false
    | .stage n => decide (ph ≤ n) && phasedOK f n t

/-- The order the posts route actually implements: IP limiter (1), then the
timeline-cooldown check (2), then the username limiter (3), then upstream
calls (4); a global limiter call never occurs. -/
def stagePosts : Ev → StageRes
  | .rateLimit .ip _ => .stage 1
  | .cooldownCheck _ => .stage 2
  | .rateLimit .user _ => .stage 3
  | .rateLimit .global _ => .never
  | .upstream _ => .stage 4
  | _ => .skip

/-- The order the direct profile route actually implements: IP (1),
username (2), lookup-cooldown check (3), upstream (4); no global limiter. -/
def stageProfile : Ev → StageRes
  | .rateLimit .ip _ => .stage 1
  | .rateLimit .user _ => .stage 2
  | .cooldownCheck _ => .stage 3
  | .rateLimit .global _ => .never
  | .upstream _ => .stage 4
  | _ => .skip

/-- The order the search-first profile route actually implements: IP (1),
username (2), search-cooldown check (3), global limiter (4), search (5),
lookup-cooldown check (6), fallback lookup (7). -/
def stageSearchProfile : Ev → StageRes
  | .rateLimit .ip _ => .stage 1
  | .rateLimit .user _ => .stage 2
  | .cooldownCheck k => if k == "cooldown:x:v2TweetsSearchRecent" then .stage 3 else .stage 6
  | .rateLimit .global _ => .stage 4
  | .upstream .search => .stage 5
  | .upstream .userLookup => .stage 7
  | .upstream .timeline => .never
  | _ => .skip

/-- The order the IQ route actually implements, which is the spec's order:
IP (1), username (2), global (3), cooldown check (4), search (5), LLM (6). -/
def stageIq : Ev → StageRes
  | .rateLimit .ip _ => .stage 1
  | .rateLimit .user _ => .stage 2
  | .rateLimit .global _ => .stage 3
  | .cooldownCheck _ => .stage 4
  | .upstream .search => .stage 5
  | .upstream .userLookup => .never
  | .upstream .timeline => .never
  | .llmCall => .stage 6
  | _ => .skip

/-- A lower starting phase is a weaker constraint. -/
theorem phasedOK_mono (f : Ev → StageRes) (t : List Ev) :
    ∀ ph ph' : Nat, ph' ≤ ph → phasedOK f ph t = true → phasedOK f ph' t = true := by
  induction t with
  | nil => intro ph ph' _ _; rfl
  | cons e t ih =>
    intro ph ph' hle h
    simp only [phasedOK] at h ⊢
    cases hf : f e with
    | skip => rw [hf] at h; exact ih ph ph' hle h
    | never => rw [hf] at h; exact absurd h (by simp)
    | stage n =>
      rw [hf] at h
      simp only [Bool.and_eq_true, decide_eq_true_eq] at h ⊢
      exact ⟨le_trans hle h.1, ih n n le_rfl h.2⟩

section StageLemmas

namespace XPosts

theorem posts_onError_phase (env : Env) (e : Exn) (ph : Nat) :
    phasedOK stagePosts ph (onError env e).2 = true := by
  unfold onError
  try dsimp only
  repeat' split
  all_goals (first | rfl | simp [phasedOK, stagePosts])

theorem posts_afterImg_phase (env : Env) (req : Req) (username key : String) (user : XUser) :
    phasedOK stagePosts 4 (afterImg env req username key user).2 = true := by
  unfold afterImg
  try dsimp only
  repeat' split
  all_goals (first | rfl | exact posts_onError_phase env _ _)

theorem posts_afterLookup_phase (env : Env) (req : Req) (username key : String) (user : XUser) :
    phasedOK stagePosts 4 (afterLookup env req username key user).2 = true := by
  unfold afterLookup
  try dsimp only
  repeat' split
  all_goals
    (first
      | rfl
      | exact posts_onError_phase env _ _
      | exact posts_afterImg_phase env req username key user)

theorem posts_afterClient_phase (env : Env) (req : Req) (username key : String) :
    phasedOK stagePosts 3 (afterClient env req username key).2 = true := by
  unfold afterClient
  try dsimp only
  repeat' split
  all_goals
    (first
      | rfl
      | exact posts_onError_phase env _ _
      | exact posts_afterLookup_phase env req username key _)

theorem posts_afterCooldown_phase (env : Env) (req : Req) (username key : String) :
    phasedOK stagePosts 2 (afterCooldown env req username key).2 = true := by
  unfold afterCooldown
  try dsimp only
  repeat' split
  all_goals
    (first
      | rfl
      | exact posts_onError_phase env _ _
      | exact posts_afterClient_phase env req username key)

theorem posts_afterCooldown_phase1 (env : Env) (req : Req) (username key : String) :
    phasedOK stagePosts 1 (afterCooldown env req username key).2 = true :=
  phasedOK_mono stagePosts _ 2 1 (by omega) (posts_afterCooldown_phase env req username key)

theorem posts_afterIp_phase (env : Env) (req : Req) (username key : String) :
    phasedOK stagePosts 1 (afterIp env req username key).2 = true := by
  unfold afterIp
  try dsimp only
  repeat' split
  all_goals
    (first
      | rfl
      | exact posts_onError_phase env _ _
      | exact posts_afterCooldown_phase env req username key
      | exact posts_afterCooldown_phase1 env req username key)

theorem posts_afterCache_phase (env : Env) (req : Req) (username key : String) :
    phasedOK stagePosts 0 (afterCache env req username key).2 = true := by
  unfold afterCache
  try dsimp only
  repeat' split
  all_goals (first | rfl | exact posts_afterIp_phase env req username key)

theorem posts_GET_phase (env : Env) (req : Req) :
    phasedOK stagePosts 0 (GET env req).2 = true := by
  unfold GET
  try dsimp only
  repeat' split
  all_goals
    (first
      | rfl
      | exact posts_onError_phase env _ _
      | exact posts_afterCache_phase env req _ _)

end XPosts

namespace XProfile

theorem prof_onError_phase (env : Env) (e : Exn) (ph : Nat) :
    phasedOK stageProfile ph (onError env e).2 = true := by
  unfold onError
  try dsimp only
  repeat' split
  all_goals rfl

theorem prof_afterCooldown_phase (env : Env) (handle key : String) :
    phasedOK stageProfile 3 (afterCooldown env handle key).2 = true := by
  unfold afterCooldown
  try dsimp only
  repeat' split
  all_goals (first | rfl | exact prof_onError_phase env _ _)

theorem prof_afterCooldown_phase2 (env : Env) (handle key : String) :
    phasedOK stageProfile 2 (afterCooldown env handle key).2 = true :=
  phasedOK_mono stageProfile _ 3 2 (by omega) (prof_afterCooldown_phase env handle key)

theorem prof_afterLimits_phase (env : Env) (handle key : String) :
    phasedOK stageProfile 2 (afterLimits env handle key).2 = true := by
  unfold afterLimits
  try dsimp only
  repeat' split
  all_goals
    (first
      | rfl
      | exact prof_onError_phase env _ _
      | exact prof_afterCooldown_phase env handle key
      | exact prof_afterCooldown_phase2 env handle key)

theorem prof_afterCache_phase (env : Env) (req : Req) (handle key : String) :
    phasedOK stageProfile 0 (afterCache env req handle key).2 = true := by
  unfold afterCache
  try dsimp only
  repeat' split
  all_goals (first | rfl | exact prof_afterLimits_phase env handle key)

theorem prof_GET_phase (env : Env) (req : Req) :
    phasedOK stageProfile 0 (GET env req).2 = true := by
  unfold GET
  try dsimp only
  repeat' split
  all_goals
    (first
      | rfl
      | exact prof_onError_phase env _ _
      | exact prof_afterCache_phase env req _ _)

end XProfile

namespace XProfileSearch

theorem sprof_onError_phase (env : Env) (le : Option UpOp) (e : Exn) (ph : Nat) :
    phasedOK stageSearchProfile ph (onError env le e).2 = true := by
  unfold onError
  try dsimp only
  repeat' split
  all_goals rfl

theorem sprof_doLookup_phase (env : Env) (handle key : String) :
    phasedOK stageSearchProfile 6 (doLookup env handle key).2 = true := by
  unfold doLookup
  try dsimp only
  repeat' split
  all_goals (first | rfl | exact sprof_onError_phase env _ _ _)

theorem sprof_doLookup_phase5 (env : Env) (handle key : String) :
    phasedOK stageSearchProfile 5 (doLookup env handle key).2 = true :=
  phasedOK_mono stageSearchProfile _ 6 5 (by omega) (sprof_doLookup_phase env handle key)

theorem sprof_fallbackLookup_phase (env : Env) (handle key : String) :
    phasedOK stageSearchProfile 5 (fallbackLookup env handle key).2 = true := by
  unfold fallbackLookup
  try dsimp only
  repeat' split
  all_goals
    (first
      | rfl
      | exact sprof_onError_phase env _ _ _
      | exact sprof_doLookup_phase env handle key
      | exact sprof_doLookup_phase5 env handle key)

theorem sprof_afterCooldown_phase (env : Env) (handle key : String) :
    phasedOK stageSearchProfile 3 (afterCooldown env handle key).2 = true := by
  unfold afterCooldown
  try dsimp only
  repeat' split
  all_goals
    (first
      | rfl
      | exact sprof_onError_phase env _ _ _
      | exact sprof_fallbackLookup_phase env handle key)

theorem sprof_afterCooldown_phase2 (env : Env) (handle key : String) :
    phasedOK stageSearchProfile 2 (afterCooldown env handle key).2 = true :=
  phasedOK_mono stageSearchProfile _ 3 2 (by omega) (sprof_afterCooldown_phase env handle key)

theorem sprof_afterFailClosed_phase (env : Env) (req : Req) (handle key : String) :
    phasedOK stageSearchProfile 0 (afterFailClosed env req handle key).2 = true := by
  unfold afterFailClosed
  try dsimp only
  repeat' split
  all_goals
    (first
      | rfl
      | exact sprof_onError_phase env _ _ _
      | exact sprof_afterCooldown_phase env handle key
      | exact sprof_afterCooldown_phase2 env handle key)

theorem sprof_GET_phase (env : Env) (req : Req) :
    phasedOK stageSearchProfile 0 (GET env req).2 = true := by
  unfold GET
  try dsimp only
  repeat' split
  all_goals
    (first
      | rfl
      | exact sprof_onError_phase env _ _ _
      | exact sprof_afterFailClosed_phase env req _ _)

end XProfileSearch

namespace XIq

theorem iq_onError_phase (env : Env) (e : Exn) (ph : Nat) :
    phasedOK stageIq ph (onError env e).2 = true := by
  unfold onError
  try dsimp only
  repeat' split
  all_goals rfl

theorem iq_finishIq_phase (env : Env) (handle : String) (latest : Tweet) (author : Option XUser)
    (iq : Int) (expl : Option String) (raw : String) (ph : Nat) :
    phasedOK stageIq ph (finishIq env handle latest author iq expl raw).2 = true := by
  unfold finishIq
  try dsimp only
  repeat' split
  all_goals (first | rfl | exact iq_onError_phase env _ _)

theorem iq_afterTweetCache_phase (env : Env) (handle : String) (latest : Tweet)
    (author : Option XUser) :
    phasedOK stageIq 5 (afterTweetCache env handle latest author).2 = true := by
  unfold afterTweetCache
  try dsimp only
  repeat' split
  all_goals
    (first
      | rfl
      | exact iq_onError_phase env _ _
      | exact iq_finishIq_phase env handle latest author _ _ _ _)

theorem iq_afterSearch_phase (env : Env) (handle : String) (latest : Tweet)
    (author : Option XUser) :
    phasedOK stageIq 5 (afterSearch env handle latest author).2 = true := by
  unfold afterSearch
  try dsimp only
  repeat' split
  all_goals
    (first
      | rfl
      | exact iq_onError_phase env _ _
      | exact iq_afterTweetCache_phase env handle latest author)

theorem iq_afterCd_phase (env : Env) (handle : String) :
    phasedOK stageIq 4 (afterCd env handle).2 = true := by
  unfold afterCd
  try dsimp only
  repeat' split
  all_goals
    (first
      | rfl
      | exact iq_onError_phase env _ _
      | exact iq_afterSearch_phase env handle _ _)

theorem iq_afterLimits_phase (env : Env) (handle : String) :
    phasedOK stageIq 3 (afterLimits env handle).2 = true := by
  unfold afterLimits
  try dsimp only
  repeat' split
  all_goals
    (first
      | rfl
      | exact iq_onError_phase env _ _
      | exact iq_afterCd_phase env handle
      | exact phasedOK_mono stageIq _ 4 3 (by omega) (iq_afterCd_phase env handle))

theorem iq_afterCache_phase (env : Env) (req : Req) (handle : String) :
    phasedOK stageIq 0 (afterCache env req handle).2 = true := by
  unfold afterCache
  try dsimp only
  repeat' split
  all_goals (first | rfl | exact iq_afterLimits_phase env handle)

theorem iq_GET_phase (env : Env) (req : Req) :
    phasedOK stageIq 0 (GET env req).2 = true := by
  unfold GET
  try dsimp only
  repeat' split
  all_goals
    (first
      | rfl
      | exact iq_onError_phase env _ _
      | exact iq_afterCache_phase env req _)

end XIq

namespace XPosts

theorem posts_onError_trips (env : Env) (e : Exn) :
    tripsOnly "cooldown:x:v2UserTimeline" (onError env e).2 = true := by
  unfold onError
  try dsimp only
  repeat' split
  all_goals rfl

theorem posts_afterImg_trips (env : Env) (req : Req) (username key : String) (user : XUser) :
    tripsOnly "cooldown:x:v2UserTimeline" (afterImg env req username key user).2 = true := by
  unfold afterImg
  try dsimp only
  repeat' split
  all_goals (first | rfl | exact posts_onError_trips env _)

theorem posts_afterLookup_trips (env : Env) (req : Req) (username key : String) (user : XUser) :
    tripsOnly "cooldown:x:v2UserTimeline" (afterLookup env req username key user).2 = true := by
  unfold afterLookup
  try dsimp only
  repeat' split
  all_goals
    (first
      | rfl
      | exact posts_onError_trips env _
      | exact posts_afterImg_trips env req username key user)

theorem posts_afterClient_trips (env : Env) (req : Req) (username key : String) :
    tripsOnly "cooldown:x:v2UserTimeline" (afterClient env req username key).2 = true := by
  unfold afterClient
  try dsimp only
  repeat' split
  all_goals
    (first
      | rfl
      | exact posts_onError_trips env _
      | exact posts_afterLookup_trips env req username key _)

theorem posts_afterCooldown_trips (env : Env) (req : Req) (username key : String) :
    tripsOnly "cooldown:x:v2UserTimeline" (afterCooldown env req username key).2 = true := by
  unfold afterCooldown
  try dsimp only
  repeat' split
  all_goals
    (first
      | rfl
      | exact posts_onError_trips env _
      | exact posts_afterClient_trips env req username key)

theorem posts_afterIp_trips (env : Env) (req : Req) (username key : String) :
    tripsOnly "cooldown:x:v2UserTimeline" (afterIp env req username key).2 = true := by
  unfold afterIp
  try dsimp only
  repeat' split
  all_goals
    (first
      | rfl
      | exact posts_onError_trips env _
      | exact posts_afterCooldown_trips env req username key)

theorem posts_afterCache_trips (env : Env) (req : Req) (username key : String) :
    tripsOnly "cooldown:x:v2UserTimeline" (afterCache env req username key).2 = true := by
  unfold afterCache
  try dsimp only
  repeat' split
  all_goals (first | rfl | exact posts_afterIp_trips env req username key)

theorem posts_GET_trips (env : Env) (req : Req) :
    tripsOnly "cooldown:x:v2UserTimeline" (GET env req).2 = true := by
  unfold GET
  try dsimp only
  repeat' split
  all_goals
    (first
      | rfl
      | exact posts_onError_trips env _
      | exact posts_afterCache_trips env req _ _)

end XPosts

namespace XProfile

theorem prof_onError_trips (env : Env) (e : Exn) :
    tripsMatchInvoked (some .userLookup) (onError env e).2 = true := by
  unfold onError
  try dsimp only
  repeat' split
  all_goals rfl

theorem prof_afterCooldown_trips (env : Env) (handle key : String) (last : Option UpOp) :
    tripsMatchInvoked last (afterCooldown env handle key).2 = true := by
  unfold afterCooldown
  try dsimp only
  repeat' split
  all_goals (first | rfl | exact prof_onError_trips env _)

theorem prof_afterLimits_trips (env : Env) (handle key : String) (last : Option UpOp) :
    tripsMatchInvoked last (afterLimits env handle key).2 = true := by
  unfold afterLimits
  try dsimp only
  repeat' split
  all_goals (first | rfl | exact prof_afterCooldown_trips env handle key last)

theorem prof_afterCache_trips (env : Env) (req : Req) (handle key : String) (last : Option UpOp) :
    tripsMatchInvoked last (afterCache env req handle key).2 = true := by
  unfold afterCache
  try dsimp only
  repeat' split
  all_goals (first | rfl | exact prof_afterLimits_trips env handle key last)

theorem prof_GET_trips (env : Env) (req : Req) :
    tripsMatchInvoked none (GET env req).2 = true := by
  unfold GET
  try dsimp only
  repeat' split
  all_goals (first | rfl | exact prof_afterCache_trips env req _ _ none)

end XProfile

namespace XProfileSearch

theorem sprof_onError_trips_search (env : Env) (e : Exn) :
    tripsMatchInvoked (some .search) (onError env (some .search) e).2 = true := by
  unfold onError
  try dsimp only
  repeat' split
  all_goals rfl

theorem sprof_onError_trips_lookup (env : Env) (e : Exn) :
    tripsMatchInvoked (some .userLookup) (onError env (some .userLookup) e).2 = true := by
  unfold onError
  try dsimp only
  repeat' split
  all_goals rfl

theorem sprof_doLookup_trips (env : Env) (handle key : String) (last : Option UpOp) :
    tripsMatchInvoked last (doLookup env handle key).2 = true := by
  unfold doLookup
  try dsimp only
  repeat' split
  all_goals (first | rfl | exact sprof_onError_trips_lookup env _)

theorem sprof_fallbackLookup_trips (env : Env) (handle key : String) (last : Option UpOp) :
    tripsMatchInvoked last (fallbackLookup env handle key).2 = true := by
  unfold fallbackLookup
  try dsimp only
  repeat' split
  all_goals (first | rfl | exact sprof_doLookup_trips env handle key last)

theorem sprof_afterCooldown_trips (env : Env) (handle key : String) (last : Option UpOp) :
    tripsMatchInvoked last (afterCooldown env handle key).2 = true := by
  unfold afterCooldown
  try dsimp only
  repeat' split
  all_goals
    (first
      | rfl
      | exact sprof_onError_trips_search env _
      | exact sprof_fallbackLookup_trips env handle key (some UpOp.search))

theorem sprof_afterFailClosed_trips (env : Env) (req : Req) (handle key : String)
    (last : Option UpOp) :
    tripsMatchInvoked last (afterFailClosed env req handle key).2 = true := by
  unfold afterFailClosed
  try dsimp only
  repeat' split
  all_goals (first | rfl | exact sprof_afterCooldown_trips env handle key last)

theorem sprof_GET_trips (env : Env) (req : Req) :
    tripsMatchInvoked none (GET env req).2 = true := by
  unfold GET
  try dsimp only
  repeat' split
  all_goals (first | rfl | exact sprof_afterFailClosed_trips env req _ _ none)

end XProfileSearch

namespace XIq

theorem iq_onError_trips (env : Env) (e : Exn) :
    tripsMatchInvoked (some .search) (onError env e).2 = true := by
  unfold onError
  try dsimp only
  repeat' split
  all_goals rfl

theorem iq_finishIq_trips (env : Env) (handle : String) (latest : Tweet) (author : Option XUser)
    (iq : Int) (expl : Option String) (raw : String) (last : Option UpOp) :
    tripsMatchInvoked last (finishIq env handle latest author iq expl raw).2 = true := by
  unfold finishIq
  try dsimp only
  repeat' split
  all_goals rfl

theorem iq_afterTweetCache_trips (env : Env) (handle : String) (latest : Tweet)
    (author : Option XUser) (last : Option UpOp) :
    tripsMatchInvoked last (afterTweetCache env handle latest author).2 = true := by
  unfold afterTweetCache
  try dsimp only
  repeat' split
  all_goals (first | rfl | exact iq_finishIq_trips env handle latest author _ _ _ last)

theorem iq_afterSearch_trips (env : Env) (handle : String) (latest : Tweet)
    (author : Option XUser) (last : Option UpOp) :
    tripsMatchInvoked last (afterSearch env handle latest author).2 = true := by
  unfold afterSearch
  try dsimp only
  repeat' split
  all_goals (first | rfl | exact iq_afterTweetCache_trips env handle latest author last)

theorem iq_afterCd_trips (env : Env) (handle : String) (last : Option UpOp) :
    tripsMatchInvoked last (afterCd env handle).2 = true := by
  unfold afterCd
  try dsimp only
  repeat' split
  all_goals
    (first
      | rfl
      | exact iq_onError_trips env _
      | exact iq_afterSearch_trips env handle _ _ (some UpOp.search))

theorem iq_afterLimits_trips (env : Env) (handle : String) (last : Option UpOp) :
    tripsMatchInvoked last (afterLimits env handle).2 = true := by
  unfold afterLimits
  try dsimp only
  repeat' split
  all_goals (first | rfl | exact iq_afterCd_trips env handle last)

theorem iq_afterCache_trips (env : Env) (req : Req) (handle : String) (last : Option UpOp) :
    tripsMatchInvoked last (afterCache env req handle).2 = true := by
  unfold afterCache
  try dsimp only
  repeat' split
  all_goals (first | rfl | exact iq_afterLimits_trips env handle last)

theorem iq_GET_trips (env : Env) (req : Req) :
    tripsMatchInvoked none (GET env req).2 = true := by
  unfold GET
  try dsimp only
  repeat' split
  all_goals (first | rfl | exact iq_afterCache_trips env req _ none)

end XIq

end StageLemmas

theorem ipSubjectsAre_cons (subj : String) (e : Ev) (t : List Ev) :
    ipSubjectsAre subj (e :: t) =
      ((match e with
        | .rateLimit .ip s => s == subj
        | _ => true) && ipSubjectsAre subj t) := by
  simp [ipSubjectsAre]

section IpLemmas

namespace XPosts

theorem posts_onError_ips (env : Env) (e : Exn) (subj : String) :
    ipSubjectsAre subj (onError env e).2 = true := by
  unfold onError
  try dsimp only
  repeat' split
  all_goals rfl

theorem posts_afterImg_ips (env : Env) (req : Req) (username key : String) (user : XUser)
    (subj : String) : ipSubjectsAre subj (afterImg env req username key user).2 = true := by
  unfold afterImg
  try dsimp only
  repeat' split
  all_goals (first | rfl | exact posts_onError_ips env _ subj)

theorem posts_afterLookup_ips (env : Env) (req : Req) (username key : String) (user : XUser)
    (subj : String) : ipSubjectsAre subj (afterLookup env req username key user).2 = true := by
  unfold afterLookup
  try dsimp only
  repeat' split
  all_goals
    (first
      | rfl
      | exact posts_onError_ips env _ subj
      | exact posts_afterImg_ips env req username key user subj)

theorem posts_afterClient_ips (env : Env) (req : Req) (username key : String) (subj : String) :
    ipSubjectsAre subj (afterClient env req username key).2 = true := by
  unfold afterClient
  try dsimp only
  repeat' split
  all_goals
    (first
      | rfl
      | exact posts_onError_ips env _ subj
      | exact posts_afterLookup_ips env req username key _ subj)

theorem posts_afterCooldown_ips (env : Env) (req : Req) (username key : String) (subj : String) :
    ipSubjectsAre subj (afterCooldown env req username key).2 = true := by
  unfold afterCooldown
  try dsimp only
  repeat' split
  all_goals
    (first
      | rfl
      | exact posts_onError_ips env _ subj
      | exact posts_afterClient_ips env req username key subj)

theorem posts_afterIp_ips (env : Env) (req : Req) (username key : String) (subj : String) :
    ipSubjectsAre subj (afterIp env req username key).2 = true := by
  unfold afterIp
  try dsimp only
  repeat' split
  all_goals
    (first
      | rfl
      | exact posts_onError_ips env _ subj
      | exact posts_afterCooldown_ips env req username key subj)

theorem posts_afterCache_ips (env : Env) (req : Req) (username key : String) :
    ipSubjectsAre (ipSubjectOf req.xff) (afterCache env req username key).2 = true := by
  unfold afterCache
  try dsimp only
  rw [withPre_snd, List.cons_append, List.nil_append, ipSubjectsAre_cons]
  simp only [beq_self_eq_true, Bool.true_and]
  repeat' split
  all_goals (first | rfl | exact posts_afterIp_ips env req username key _)

theorem posts_GET_ips (env : Env) (req : Req) :
    ipSubjectsAre (ipSubjectOf req.xff) (GET env req).2 = true := by
  unfold GET
  try dsimp only
  repeat' split
  all_goals
    (first
      | rfl
      | exact posts_onError_ips env _ _
      | exact posts_afterCache_ips env req _ _)

end XPosts

namespace XProfileSearch

theorem sprof_onError_ips (env : Env) (le : Option UpOp) (e : Exn) (subj : String) :
    ipSubjectsAre subj (onError env le e).2 = true := by
  unfold onError
  try dsimp only
  repeat' split
  all_goals rfl

theorem sprof_doLookup_ips (env : Env) (handle key : String) (subj : String) :
    ipSubjectsAre subj (doLookup env handle key).2 = true := by
  unfold doLookup
  try dsimp only
  repeat' split
  all_goals (first | rfl | exact sprof_onError_ips env _ _ subj)

theorem sprof_fallbackLookup_ips (env : Env) (handle key : String) (subj : String) :
    ipSubjectsAre subj (fallbackLookup env handle key).2 = true := by
  unfold fallbackLookup
  try dsimp only
  repeat' split
  all_goals (first | rfl | exact sprof_doLookup_ips env handle key subj)

theorem sprof_afterCooldown_ips (env : Env) (handle key : String) (subj : String) :
    ipSubjectsAre subj (afterCooldown env handle key).2 = true := by
  unfold afterCooldown
  try dsimp only
  repeat' split
  all_goals
    (first
      | rfl
      | exact sprof_onError_ips env _ _ subj
      | exact sprof_fallbackLookup_ips env handle key subj)

theorem sprof_afterFailClosed_ips (env : Env) (req : Req) (handle key : String) :
    ipSubjectsAre (ipSubjectOf req.xff) (afterFailClosed env req handle key).2 = true := by
  unfold afterFailClosed
  try dsimp only
  rw [withPre_snd, List.cons_append, List.nil_append, ipSubjectsAre_cons]
  simp only [beq_self_eq_true, Bool.true_and]
  repeat' split
  all_goals
    (first
      | rfl
      | exact sprof_onError_ips env _ _ _
      | exact sprof_afterCooldown_ips env handle key _)

theorem sprof_GET_ips (env : Env) (req : Req) :
    ipSubjectsAre (ipSubjectOf req.xff) (GET env req).2 = true := by
  unfold GET
  try dsimp only
  repeat' split
  all_goals
    (first
      | rfl
      | exact sprof_onError_ips env _ _ _
      | exact sprof_afterFailClosed_ips env req _ _)

end XProfileSearch

namespace XIq

theorem iq_onError_ips (env : Env) (e : Exn) (subj : String) :
    ipSubjectsAre subj (onError env e).2 = true := by
  unfold onError
  try dsimp only
  repeat' split
  all_goals rfl

theorem iq_finishIq_ips (env : Env) (handle : String) (latest : Tweet) (author : Option XUser)
    (iq : Int) (expl : Option String) (raw : String) (subj : String) :
    ipSubjectsAre subj (finishIq env handle latest author iq expl raw).2 = true := by
  unfold finishIq
  try dsimp only
  repeat' split
  all_goals rfl

theorem iq_afterTweetCache_ips (env : Env) (handle : String) (latest : Tweet)
    (author : Option XUser) (subj : String) :
    ipSubjectsAre subj (afterTweetCache env handle latest author).2 = true := by
  unfold afterTweetCache
  try dsimp only
  repeat' split
  all_goals
    (first
      | rfl
      | exact iq_onError_ips env _ subj
      | exact iq_finishIq_ips env handle latest author _ _ _ subj)

theorem iq_afterSearch_ips (env : Env) (handle : String) (latest : Tweet)
    (author : Option XUser) (subj : String) :
    ipSubjectsAre subj (afterSearch env handle latest author).2 = true := by
  unfold afterSearch
  try dsimp only
  repeat' split
  all_goals
    (first
      | rfl
      | exact iq_onError_ips env _ subj
      | exact iq_afterTweetCache_ips env handle latest author subj)

theorem iq_afterCd_ips (env : Env) (handle : String) (subj : String) :
    ipSubjectsAre subj (afterCd env handle).2 = true := by
  unfold afterCd
  try dsimp only
  repeat' split
  all_goals
    (first
      | rfl
      | exact iq_onError_ips env _ subj
      | exact iq_afterSearch_ips env handle _ _ subj)

theorem iq_afterLimits_ips (env : Env) (handle : String) (subj : String) :
    ipSubjectsAre subj (afterLimits env handle).2 = true := by
  unfold afterLimits
  try dsimp only
  repeat' split
  all_goals
    (first
      | rfl
      | exact iq_onError_ips env _ subj
      | exact iq_afterCd_ips env handle subj)

theorem iq_afterCache_ips (env : Env) (req : Req) (handle : String) :
    ipSubjectsAre (ipSubjectOf req.xff) (afterCache env req handle).2 = true := by
  unfold afterCache
  try dsimp only
  rw [withPre_snd, List.cons_append, ipSubjectsAre_cons]
  simp only [beq_self_eq_true, Bool.true_and]
  repeat' split
  all_goals (first | rfl | exact iq_afterLimits_ips env handle _)

theorem iq_GET_ips (env : Env) (req : Req) :
    ipSubjectsAre (ipSubjectOf req.xff) (GET env req).2 = true := by
  unfold GET
  try dsimp only
  repeat' split
  all_goals
    (first
      | rfl
      | exact iq_onError_ips env _ _
      | exact iq_afterCache_ips env req _)

end XIq

end IpLemmas

/-- No cache write occurs in the trace. -/
def noSets (t : List Ev) : Bool := t.all (fun e => !isSet e)

/-- The distinct derivation-failure outcome of the IQ route. -/
def derivationFailedResp : Resp :=
  ⟨502, jsonError "Failed to extract IQ from model output", none, none, false⟩

section C8Lemmas

namespace XIq

theorem iq_afterTweetCache_c8 (env : Env) (handle : String) (latest : Tweet)
    (author : Option XUser) (c : String) (hllm : env.llm = .ok c)
    (hE : (extractIq (env.jsonParse (jsTrim c)) (jsTrim c)).1 = none) :
    noSets (afterTweetCache env handle latest author).2 = true ∧
      ((afterTweetCache env handle latest author).1 = derivationFailedResp ∨
        hasEv isLlm (afterTweetCache env handle latest author).2 = false) := by
  rcases hx : extractIq (env.jsonParse (jsTrim c)) (jsTrim c) with ⟨iqo, expl⟩
  have hiq : iqo = none := by rw [hx] at hE; exact hE
  subst hiq
  unfold afterTweetCache
  split
  · simp only [hllm]
    simp only [hx]
    exact ⟨rfl, Or.inl rfl⟩
  · exact ⟨rfl, Or.inr rfl⟩

theorem iq_afterSearch_c8 (env : Env) (handle : String) (latest : Tweet)
    (author : Option XUser) (c : String) (hllm : env.llm = .ok c)
    (hE : (extractIq (env.jsonParse (jsTrim c)) (jsTrim c)).1 = none) :
    noSets (afterSearch env handle latest author).2 = true ∧
      ((afterSearch env handle latest author).1 = derivationFailedResp ∨
        hasEv isLlm (afterSearch env handle latest author).2 = false) := by
  unfold afterSearch
  try dsimp only
  repeat' split
  all_goals
    (first
      | exact ⟨rfl, Or.inr rfl⟩
      | exact iq_afterTweetCache_c8 env handle latest author c hllm hE)

theorem iq_afterCd_c8 (env : Env) (handle : String) (c : String) (hllm : env.llm = .ok c)
    (hE : (extractIq (env.jsonParse (jsTrim c)) (jsTrim c)).1 = none) :
    noSets (afterCd env handle).2 = true ∧
      ((afterCd env handle).1 = derivationFailedResp ∨
        hasEv isLlm (afterCd env handle).2 = false) := by
  unfold afterCd onError
  try dsimp only
  repeat' split
  all_goals
    (first
      | exact ⟨rfl, Or.inr rfl⟩
      | exact iq_afterSearch_c8 env handle _ _ c hllm hE)

theorem iq_afterLimits_c8 (env : Env) (handle : String) (c : String) (hllm : env.llm = .ok c)
    (hE : (extractIq (env.jsonParse (jsTrim c)) (jsTrim c)).1 = none) :
    noSets (afterLimits env handle).2 = true ∧
      ((afterLimits env handle).1 = derivationFailedResp ∨
        hasEv isLlm (afterLimits env handle).2 = false) := by
  unfold afterLimits
  try dsimp only
  repeat' split
  all_goals
    (first
      | exact ⟨rfl, Or.inr rfl⟩
      | exact iq_afterCd_c8 env handle c hllm hE)

theorem iq_afterCache_c8 (env : Env) (req : Req) (handle : String) (c : String)
    (hllm : env.llm = .ok c)
    (hE : (extractIq (env.jsonParse (jsTrim c)) (jsTrim c)).1 = none) :
    noSets (afterCache env req handle).2 = true ∧
      ((afterCache env req handle).1 = derivationFailedResp ∨
        hasEv isLlm (afterCache env req handle).2 = false) := by
  unfold afterCache
  try dsimp only
  repeat' split
  all_goals
    (first
      | exact ⟨rfl, Or.inr rfl⟩
      | exact iq_afterLimits_c8 env handle c hllm hE)

theorem iq_GET_c8 (env : Env) (req : Req) (c : String) (hllm : env.llm = .ok c)
    (hE : (extractIq (env.jsonParse (jsTrim c)) (jsTrim c)).1 = none) :
    noSets (GET env req).2 = true ∧
      ((GET env req).1 = derivationFailedResp ∨
        hasEv isLlm (GET env req).2 = false) := by
  unfold GET onError
  try dsimp only
  repeat' split
  all_goals
    (first
      | exact ⟨rfl, Or.inr rfl⟩
      | exact iq_afterCache_c8 env req _ c hllm hE)

end XIq

end C8Lemmas

/-
  Claim theorems.
-/

/-- A fully successful environment: store configured and empty, all
limiters allowing, upstream healthy. -/
def envC1 : Env :=
  ⟨true, false, true, true, 1000, fun _ => .ok none, fun _ => false, fun _ _ => true,
    fun _ => .ok (some ⟨"id1", "Jack", "jack", none⟩), fun _ _ => .ok "tl",
    fun _ => .ok ⟨[⟨"tw1", "hello"⟩], [⟨"id1", "Jack", "jack", none⟩]⟩,
    .ok "x", fun _ => none⟩

/-- A plain request for handle jack from a known client address. -/
def reqC1 : Req := ⟨some "jack", none, some "1.2.3.4"⟩

/-- C1 counterexample: on a cache-missing request the posts route runs the
timeline-cooldown check after only the per-IP limiter — before the
per-handle check and with no global check at all — so the claimed order
(all three limiter checks before the cooldown check) is violated on this
concrete fully-successful run. -/
theorem c1_counterexample : specOrder (XPosts.GET envC1 reqC1).2 = false := by decide

/-- C1 (amended): the orders each route actually implements, as
nondecreasing stage automata over the trace: the posts route runs per-IP,
timeline-cooldown, per-handle, upstream (never a global check); the direct
profile route runs per-IP, per-handle, lookup-cooldown, upstream (never a
global check); the search-first profile route runs per-IP, per-handle,
search-cooldown, global, search, then lookup-cooldown before the fallback
lookup; the derived-score route runs per-IP, per-handle, global, cooldown,
upstream, LLM — the spec's order.  In every route each cooldown check
precedes the upstream call it guards. -/
theorem c1_order_amended (env : Env) (req : Req) :
    phasedOK stagePosts 0 (XPosts.GET env req).2 = true ∧
      phasedOK stageProfile 0 (XProfile.GET env req).2 = true ∧
      phasedOK stageSearchProfile 0 (XProfileSearch.GET env req).2 = true ∧
      phasedOK stageIq 0 (XIq.GET env req).2 = true :=
  ⟨XPosts.posts_GET_phase env req, XProfile.prof_GET_phase env req,
    XProfileSearch.sprof_GET_phase env req, XIq.iq_GET_phase env req⟩

/-- An environment whose user lookup fails with a 429 advertising a reset
100 seconds away; everything else healthy. -/
def envC6 : Env :=
  ⟨true, false, true, true, 1000, fun _ => .ok none, fun _ => false, fun _ _ => true,
    fun _ => .error (.rate (some 1100)), fun _ _ => .ok "tl",
    fun _ => .ok ⟨[], []⟩, .ok "x", fun _ => none⟩

/-- C6 counterexample: when the posts route's lookup-by-handle call fails
with the overload signal, the cooldown key it trips is the timeline key —
a key for an operation that was never invoked in that request. -/
theorem c6_counterexample : tripsMatchInvoked none (XPosts.GET envC6 reqC1).2 = false := by
  decide

/-- C6 (amended): in the two profile routes and the derived-score route
every tripped cooldown key is the key of the upstream operation most
recently invoked in that request; the posts route instead always trips the
timeline key, even when the 429 came from its lookup-by-handle call. -/
theorem c6_trips_amended (env : Env) (req : Req) :
    tripsMatchInvoked none (XProfile.GET env req).2 = true ∧
      tripsMatchInvoked none (XProfileSearch.GET env req).2 = true ∧
      tripsMatchInvoked none (XIq.GET env req).2 = true ∧
      tripsOnly "cooldown:x:v2UserTimeline" (XPosts.GET env req).2 = true :=
  ⟨XProfile.prof_GET_trips env req, XProfileSearch.sprof_GET_trips env req,
    XIq.iq_GET_trips env req, XPosts.posts_GET_trips env req⟩

/-- C10: when the x-forwarded-for header is absent the per-client subject
is the constant "ip:unknown" (so all such clients share one window); when
present it is the first comma-separated entry, trimmed; and in the posts,
derived-score and search-first profile routes every per-IP limiter call in
any run carries exactly that subject. -/
theorem c10_ip_subject :
    ipSubjectOf none = "ip:unknown" ∧
      (∀ s : String, ipSubjectOf (some s) = jsTrim (takeUntilComma s)) ∧
      ∀ (env : Env) (req : Req),
        ipSubjectsAre (ipSubjectOf req.xff) (XPosts.GET env req).2 = true ∧
          ipSubjectsAre (ipSubjectOf req.xff) (XIq.GET env req).2 = true ∧
          ipSubjectsAre (ipSubjectOf req.xff) (XProfileSearch.GET env req).2 = true :=
  ⟨rfl, fun _ => rfl, fun env req =>
    ⟨XPosts.posts_GET_ips env req, XIq.iq_GET_ips env req, XProfileSearch.sprof_GET_ips env req⟩⟩

/-- C5: every score the derivation produces — through the strict JSON path
or the fallback extraction of the first 2-or-3-digit word — is an integer
in [55,145]; in particular a parsed iq of 999 is clamped to 145 and
non-JSON text containing the word 37 yields 55. -/
theorem c5_score_clamped :
    (∀ (parsed : Option JsVal) (raw : String) (iq : Int) (expl : Option String),
      extractIq parsed raw = (some iq, expl) → 55 ≤ iq ∧ iq ≤ 145) ∧
      extractIq (some (JsVal.jobj (some (JsVal.jnum 999)) none)) "" = (some 145, none) ∧
      extractIq none "the model says 37" = (some 55, none) := by
  refine ⟨?_, by decide, by decide⟩
  intro parsed raw iq expl h
  cases parsed with
  | some v =>
    simp only [extractIq, Prod.mk.injEq] at h
    rcases h with ⟨h1, _⟩
    split at h1
    · rw [Option.some.injEq] at h1
      rw [← h1]
      unfold clampIq
      constructor
      · exact le_max_left _ _
      · exact max_le (by omega) (min_le_left _ _)
    · exact absurd h1 (by simp)
  | none =>
    simp only [extractIq] at h
    split at h
    · rw [Prod.mk.injEq, Option.some.injEq] at h
      rw [← h.1]
      unfold clampIq
      constructor
      · exact le_max_left _ _
      · exact max_le (by omega) (min_le_left _ _)
    · rw [Prod.mk.injEq] at h
      exact absurd h.1 (by simp)

/-- C5 witness: the theorem applied at the out-of-range JSON output
`iq = 999`, whose clamped score 145 satisfies the bounds. -/
theorem c5_witness : 55 ≤ (145 : Int) ∧ (145 : Int) ≤ 145 :=
  c5_score_clamped.1 (some (JsVal.jobj (some (JsVal.jnum 999)) none)) "" 145 none (by decide)

/-- C9 counterexample: the supplied parameter "abc" is not coerced into
[5,100]: `Number("abc")` is NaN, NaN passes through Math.max and Math.min
unchanged, so the effective max-items value of that request is NaN and lies
in no range. -/
theorem c9_counterexample :
    maxResultsOf (some "abc") = JsNum.nan ∧
      inRange5to100 (maxResultsOf (some "abc")) = false := by decide

/-- C9 (amended): the effective max-items value is 25 when the parameter is
absent, and every supplied parameter that parses as a finite number is
clamped into [5,100]; a parameter that does not parse (such as "abc")
yields NaN instead of a value in range. -/
theorem c9_max_results_amended :
    maxResultsOf none = JsNum.fin 25 ∧
      ∀ (s : String) (q : ℚ), jsNumberOfString s = JsNum.fin q →
        inRange5to100 (maxResultsOf (some s)) = true := by
  refine ⟨by decide, ?_⟩
  intro s q h
  unfold maxResultsOf
  try dsimp only
  rw [h]
  show inRange5to100 (jsMin (jsMax (JsNum.fin q) (JsNum.fin 5)) (JsNum.fin 100)) = true
  simp only [jsMax, jsMin, inRange5to100, Bool.and_eq_true, decide_eq_true_eq]
  constructor
  · exact le_min (le_max_right q 5) (by norm_num)
  · exact min_le_right _ _

/-- C9 witness: the amended theorem applied at the parameter "50", which
parses to 50 and stays in range. -/
theorem c9_amended_witness : inRange5to100 (maxResultsOf (some "50")) = true :=
  c9_max_results_amended.2 "50" 50 (by decide)

/-- The fail-closed service-unavailable outcome. -/
def unavailableResp : Resp :=
  ⟨503, jsonError "Service unavailable: caching and rate limits disabled", none, none, false⟩

/-- A production environment with the store unconfigured and a healthy
upstream. -/
def envC3 : Env :=
  ⟨false, true, true, true, 1000, fun _ => .ok none, fun _ => false, fun _ _ => true,
    fun _ => .ok (some ⟨"id1", "Jack", "jack", none⟩), fun _ _ => .ok "tl",
    fun _ => .ok ⟨[], []⟩, .ok "x", fun _ => none⟩

/-- C3 counterexample: with the store unconfigured in production the posts
route is not refused — this concrete run answers 200 and its trace shows
limiter calls and upstream calls were made. -/
theorem c3_counterexample :
    (XPosts.GET envC3 reqC1).1.status = 200 ∧
      hasEv isUp (XPosts.GET envC3 reqC1).2 = true := by decide

/-- C3 (amended): the fail-closed production check exists only in the
derived-score route and the search-first profile route, which refuse with
the 503 outcome before any limiter or upstream activity; the posts route
and the direct profile route have no such check and, given an upstream
client, proceed all the way to an upstream call with no store configured
in production. -/
theorem c3_fail_closed_amended (env : Env) (req : Req) (u : String)
    (hu : req.username = some u) (hR : env.hasRedis = false) (hp : env.prod = true) :
    ((XIq.GET env req).1 = unavailableResp ∧ (XIq.GET env req).2 = []) ∧
      ((XProfileSearch.GET env req).1 = unavailableResp ∧
        (XProfileSearch.GET env req).2 = []) ∧
      (env.hasBearer = true →
        hasEv isUp (XPosts.GET env req).2 = true ∧
          hasEv isUp (XProfile.GET env req).2 = true) := by
  refine ⟨?_, ?_, ?_⟩
  · constructor
    · simp [XIq.GET, hu, hR, hp, unavailableResp]
    · simp [XIq.GET, hu, hR, hp]
  · constructor
    · simp [XProfileSearch.GET, hu, hR, hp, unavailableResp]
    · simp [XProfileSearch.GET, hu, hR, hp]
  · intro hB
    constructor
    · simp [XPosts.GET, XPosts.afterCache, XPosts.afterIp, XPosts.afterCooldown,
        XPosts.afterClient, limitCall, hu, hR, hB, hasEv, isUp]
    · simp [XProfile.GET, XProfile.afterCache, XProfile.afterLimits,
        XProfile.afterCooldown, limitCall, hu, hR, hB, hasEv, isUp]

/-- C3 amended witness: the theorem applied at a concrete production
environment without a store. -/
theorem c3_amended_witness :
    ((XIq.GET envC3 reqC1).1 = unavailableResp ∧ (XIq.GET envC3 reqC1).2 = []) ∧
      ((XProfileSearch.GET envC3 reqC1).1 = unavailableResp ∧
        (XProfileSearch.GET envC3 reqC1).2 = []) ∧
      (envC3.hasBearer = true →
        hasEv isUp (XPosts.GET envC3 reqC1).2 = true ∧
          hasEv isUp (XProfile.GET envC3 reqC1).2 = true) :=
  c3_fail_closed_amended envC3 reqC1 "jack" rfl rfl rfl

/-- C4: a hit on the entry-level cache is answered immediately with the
cached body and the HIT indicator, and the run's trace contains no limiter
call, no cooldown check and no upstream call — for the posts route, the
derived-score route and the search-first profile route. -/
theorem c4_cache_hit_bypass (env : Env) (req : Req) (u : String) (v : RVal)
    (hu : req.username = some u) (hR : env.hasRedis = true)
    (hv : truthyR (some v) = true) :
    (env.redisGet (XPosts.cacheKey u req.maxResultsParam) = .ok (some v) →
      (XPosts.GET env req).1 = ⟨200, bodyOfCached (some v), some "HIT", none, false⟩ ∧
        noProtection (XPosts.GET env req).2 = true) ∧
      (env.redisGet (iqLatestKey (normalizeHandle u)) = .ok (some v) →
        (XIq.GET env req).1 = ⟨200, bodyOfCached (some v), some "HIT", none, false⟩ ∧
          noProtection (XIq.GET env req).2 = true) ∧
      (env.redisGet (profileCacheKey (normalizeHandle u)) = .ok (some v) →
        (XProfileSearch.GET env req).1 = ⟨200, bodyOfCached (some v), some "HIT", none, false⟩ ∧
          noProtection (XProfileSearch.GET env req).2 = true) := by
  refine ⟨fun hget => ?_, fun hget => ?_, fun hget => ?_⟩
  · constructor
    · simp [XPosts.GET, hu, hR, hget, hv]
    · simp [XPosts.GET, hu, hR, hget, hv, noProtection, hasEv, isAnyRL, isCdCheck, isUp]
  · constructor
    · simp [XIq.GET, hu, hR, hget, hv]
    · simp [XIq.GET, hu, hR, hget, hv, noProtection, hasEv, isAnyRL, isCdCheck, isUp]
  · constructor
    · simp [XProfileSearch.GET, hu, hR, hget, hv]
    · simp [XProfileSearch.GET, hu, hR, hget, hv, noProtection, hasEv, isAnyRL, isCdCheck, isUp]

/-- An environment holding a cached posts body for jack. -/
def envC4 : Env :=
  ⟨true, false, true, true, 1000,
    fun k => if k == XPosts.cacheKey "jack" none then .ok (some (.str "BODY")) else .ok none,
    fun _ => false, fun _ _ => true,
    fun _ => .ok (some ⟨"id1", "Jack", "jack", none⟩), fun _ _ => .ok "tl",
    fun _ => .ok ⟨[], []⟩, .ok "x", fun _ => none⟩

/-- C4 witness: the theorem applied at a store holding a posts body for
jack; the run serves that body as a HIT and touches no protection. -/
theorem c4_witness :
    (XPosts.GET envC4 ⟨some "jack", none, none⟩).1 =
        ⟨200, bodyOfCached (some (.str "BODY")), some "HIT", none, false⟩ ∧
      noProtection (XPosts.GET envC4 ⟨some "jack", none, none⟩).2 = true :=
  (c4_cache_hit_bypass envC4 ⟨some "jack", none, none⟩ "jack" (.str "BODY")
    rfl rfl (by decide)).1 rfl

/-- C8: whenever the model output admits no score — strict parse of the
trimmed output yields no finite iq and the fallback finds no 2-or-3-digit
word — the derived-score run writes no cache entry at all, and if the run
reached the generative call its outcome is the distinct 502
derivation-failed response. -/
theorem c8_derivation_failed (env : Env) (req : Req) (c : String)
    (hllm : env.llm = .ok c)
    (hE : (extractIq (env.jsonParse (jsTrim c)) (jsTrim c)).1 = none) :
    noSets (XIq.GET env req).2 = true ∧
      ((XIq.GET env req).1 = derivationFailedResp ∨
        hasEv isLlm (XIq.GET env req).2 = false) :=
  XIq.iq_GET_c8 env req c hllm hE

/-- An environment whose model output is prose with no extractable score. -/
def envC8 : Env :=
  ⟨true, false, true, true, 1000, fun _ => .ok none, fun _ => false, fun _ _ => true,
    fun _ => .ok (some ⟨"id1", "Jack", "jack", none⟩), fun _ _ => .ok "tl",
    fun _ => .ok ⟨[⟨"tw1", "hello"⟩], [⟨"id1", "Jack", "jack", none⟩]⟩,
    .ok "no score here", fun _ => none⟩

/-- C8 witness: the theorem applied at a run whose model output is
unusable prose; the derivation fails and nothing is cached. -/
theorem c8_witness :
    noSets (XIq.GET envC8 reqC1).2 = true ∧
      ((XIq.GET envC8 reqC1).1 = derivationFailedResp ∨
        hasEv isLlm (XIq.GET envC8 reqC1).2 = false) :=
  c8_derivation_failed envC8 reqC1 "no score here" rfl (by decide)

/-- The upstream user record served for jack in the C2 runs. -/
def userC2 : XUser := ⟨"id1", "Jack", "jack", none⟩

/-- The posts body produced by the first C2 run. -/
def bodyC2 : String := serializePosts userC2 "tl"

/-- An empty, healthy store for the first C2 run. -/
def envC2a : Env :=
  ⟨true, false, true, true, 1000, fun _ => .ok none, fun _ => false, fun _ _ => true,
    fun _ => .ok (some userC2), fun _ _ => .ok "tl",
    fun _ => .ok ⟨[], []⟩, .ok "x", fun _ => none⟩

/-- The store as left by the first C2 run: it holds exactly the posts body
under the raw-username key for "@Jack". -/
def envC2b : Env :=
  ⟨true, false, true, true, 1000,
    fun k => if k == XPosts.cacheKey "@Jack" none then .ok (some (.str bodyC2)) else .ok none,
    fun _ => false, fun _ _ => true,
    fun _ => .ok (some userC2), fun _ _ => .ok "tl",
    fun _ => .ok ⟨[], []⟩, .ok "x", fun _ => none⟩

/-- C2 counterexample: the posts operation caches under the RAW username.
A successful request for "@Jack" stores its body under
`cache:xposts:@Jack:25`; the follow-up request for "jack" — the same
canonical handle — misses that entry (no HIT indicator) and goes all the
way upstream again. -/
theorem c2_counterexample :
    (XPosts.GET envC2a ⟨some "@Jack", none, none⟩).1.status = 200 ∧
      hasEv (fun e => e == Ev.cacheSet (XPosts.cacheKey "@Jack" none))
        (XPosts.GET envC2a ⟨some "@Jack", none, none⟩).2 = true ∧
      (XPosts.GET envC2b ⟨some "jack", none, none⟩).1.xcache = none ∧
      hasEv isUp (XPosts.GET envC2b ⟨some "jack", none, none⟩).2 = true := by decide

/-- C2 (amended): the profile routes and the derived-score route key their
caches by the normalized handle, so a body cached under any handle
normalizing like `h1` is served as a HIT for a request under any `h2` with
the same canonical form; the posts route keys by the raw username and does
not have this property. -/
theorem c2_normalized_cache_hit (env : Env) (u1 u2 : String) (xff : Option String)
    (body : String) (hn : normalizeHandle u1 = normalizeHandle u2)
    (hR : env.hasRedis = true) (hb : body ≠ "") :
    (env.redisGet (profileCacheKey (normalizeHandle u1)) = .ok (some (.str body)) →
      (XProfile.GET env ⟨some u2, none, xff⟩).1 = ⟨200, body, some "HIT", none, false⟩ ∧
        (XProfileSearch.GET env ⟨some u2, none, xff⟩).1 =
          ⟨200, body, some "HIT", none, false⟩) ∧
      (env.redisGet (iqLatestKey (normalizeHandle u1)) = .ok (some (.str body)) →
        (XIq.GET env ⟨some u2, none, xff⟩).1 = ⟨200, body, some "HIT", none, false⟩) := by
  have hv : truthyR (some (.str body)) = true := by simp [truthyR]; exact hb
  constructor
  · intro hget
    rw [hn] at hget
    constructor
    · simp [XProfile.GET, hR, hget, hv, bodyOfCached]
    · simp [XProfileSearch.GET, hR, hget, hv, bodyOfCached]
  · intro hget
    rw [hn] at hget
    simp [XIq.GET, hR, hget, hv, bodyOfCached]

/-- A store holding the body "B" under both the profile key and the
per-handle IQ shortcut key for the canonical handle jack. -/
def envC2w : Env :=
  ⟨true, false, true, true, 1000,
    fun k =>
      if k == profileCacheKey "jack" || k == iqLatestKey "jack" then
        .ok (some (.str "B"))
      else .ok none,
    fun _ => false, fun _ _ => true,
    fun _ => .ok (some userC2), fun _ _ => .ok "tl",
    fun _ => .ok ⟨[], []⟩, .ok "x", fun _ => none⟩

/-- C2 amended witness: a body cached under "@Jack" is served as a HIT for
"JACK" by both profile routes and by the derived-score route. -/
theorem c2_amended_witness :
    ((XProfile.GET envC2w ⟨some "JACK", none, none⟩).1 =
        ⟨200, "B", some "HIT", none, false⟩ ∧
      (XProfileSearch.GET envC2w ⟨some "JACK", none, none⟩).1 =
        ⟨200, "B", some "HIT", none, false⟩) ∧
      (XIq.GET envC2w ⟨some "JACK", none, none⟩).1 = ⟨200, "B", some "HIT", none, false⟩ :=
  ⟨(c2_normalized_cache_hit envC2w "@Jack" "JACK" none "B" (by decide) rfl
      (by decide)).1 rfl,
    (c2_normalized_cache_hit envC2w "@Jack" "JACK" none "B" (by decide) rfl
      (by decide)).2 rfl⟩

/-- A healthy store whose read of the posts cache key throws. -/
def envC7a : Env :=
  ⟨true, false, true, true, 1000,
    fun k => if k == XPosts.cacheKey "jack" none then .error () else .ok none,
    fun _ => false, fun _ _ => true,
    fun _ => .ok (some userC2), fun _ _ => .ok "tl",
    fun _ => .ok ⟨[], []⟩, .ok "x", fun _ => none⟩

/-- C7 counterexample: with the store configured, a throwing cache lookup
is NOT treated as a miss — the posts request aborts with the generic 500
outcome and never proceeds to the upstream call. -/
theorem c7_counterexample :
    (XPosts.GET envC7a ⟨some "jack", none, none⟩).1.status = 500 ∧
      hasEv isUp (XPosts.GET envC7a ⟨some "jack", none, none⟩).2 = false := by decide

/-- C7 (amended): with the store configured, a failing entry-cache read
aborts the posts request with a 500 before any upstream call, and a failing
cache write after upstream success also turns the request into a 500; only
two store writes are swallowed: the cooldown-trip write in the 429 handler
(the outcome stays the upstream-rate-limited 429) and the direct profile
route's hit-refresh write (the outcome stays the 200 HIT). -/
theorem c7_store_failure_amended (enva envb envc envd : Env) (req : Req) (u : String)
    (user : XUser) (tl body : String) (hu : req.username = some u) :
    (enva.hasRedis = true →
      enva.redisGet (XPosts.cacheKey u req.maxResultsParam) = .error () →
      (XPosts.GET enva req).1.status = 500 ∧
        hasEv isUp (XPosts.GET enva req).2 = false) ∧
      (envb.hasRedis = true →
        envb.redisGet (XPosts.cacheKey u req.maxResultsParam) = .ok none →
        envb.redisGet "cooldown:x:v2UserTimeline" = .ok none →
        envb.allow .ip (ipSubjectOf req.xff) = true →
        envb.allow .user u = true →
        envb.hasBearer = true →
        envb.userLookup u = .ok (some user) →
        user.id ≠ "" →
        user.profile_image_url = none →
        envb.timeline user.id (maxResultsOf req.maxResultsParam) = .ok tl →
        envb.setFails (XPosts.cacheKey u req.maxResultsParam) = true →
        (XPosts.GET envb req).1.status = 500) ∧
      (envc.hasRedis = true →
        envc.redisGet (XPosts.cacheKey u req.maxResultsParam) = .ok none →
        envc.redisGet "cooldown:x:v2UserTimeline" = .ok none →
        envc.allow .ip (ipSubjectOf req.xff) = true →
        envc.allow .user u = true →
        envc.hasBearer = true →
        envc.userLookup u = .error (.rate none) →
        envc.setFails "cooldown:x:v2UserTimeline" = true →
        (XPosts.GET envc req).1.status = 429 ∧
          (XPosts.GET envc req).1.upstreamFlag = true) ∧
      (envd.hasRedis = true →
        envd.redisGet (profileCacheKey (normalizeHandle u)) = .ok (some (.str body)) →
        body ≠ "" →
        envd.setFails (profileCacheKey (normalizeHandle u)) = true →
        (XProfile.GET envd req).1 = ⟨200, body, some "HIT", none, false⟩) := by
  refine ⟨fun hR hget => ?_, fun hR h1 h2 h3 h4 h5 h6 h7 h8 h9 h10 => ?_,
    fun hR h1 h2 h3 h4 h5 h6 h7 => ?_, fun hR h1 h2 h3 => ?_⟩
  · constructor
    · simp [XPosts.GET, XPosts.onError, hu, hR, hget]
    · simp [XPosts.GET, XPosts.onError, hu, hR, hget, hasEv, isUp]
  · simp [XPosts.GET, XPosts.afterCache, XPosts.afterIp, XPosts.afterCooldown,
      XPosts.afterClient, XPosts.afterLookup, XPosts.afterImg, XPosts.onError,
      limitCall, cooldownVal, truthyR, hu, hR, h1, h2, h3, h4, h5, h6, h7, h8, h9, h10]
  · constructor
    · simp [XPosts.GET, XPosts.afterCache, XPosts.afterIp, XPosts.afterCooldown,
        XPosts.afterClient, XPosts.onError, limitCall, cooldownVal, truthyR,
        hu, hR, h1, h2, h3, h4, h5, h6, h7]
    · simp [XPosts.GET, XPosts.afterCache, XPosts.afterIp, XPosts.afterCooldown,
        XPosts.afterClient, XPosts.onError, limitCall, cooldownVal, truthyR,
        hu, hR, h1, h2, h3, h4, h5, h6, h7]
  · have hv : truthyR (some (.str body)) = true := by simp [truthyR]; exact h2
    simp [XProfile.GET, hu, hR, h1, hv, bodyOfCached]

/-- A healthy environment for C7's write-failure conjunct: only the posts
cache-key write throws. -/
def envC7b : Env :=
  ⟨true, false, true, true, 1000, fun _ => .ok none,
    fun k => k == XPosts.cacheKey "jack" none, fun _ _ => true,
    fun _ => .ok (some userC2), fun _ _ => .ok "tl",
    fun _ => .ok ⟨[], []⟩, .ok "x", fun _ => none⟩

/-- An environment whose lookup 429s and whose cooldown-trip write throws. -/
def envC7c : Env :=
  ⟨true, false, true, true, 1000, fun _ => .ok none,
    fun k => k == "cooldown:x:v2UserTimeline", fun _ _ => true,
    fun _ => .error (.rate none), fun _ _ => .ok "tl",
    fun _ => .ok ⟨[], []⟩, .ok "x", fun _ => none⟩

/-- A store holding a profile body for jack whose refresh write throws. -/
def envC7d : Env :=
  ⟨true, false, true, true, 1000,
    fun k => if k == profileCacheKey "jack" then .ok (some (.str "B")) else .ok none,
    fun k => k == profileCacheKey "jack", fun _ _ => true,
    fun _ => .ok (some userC2), fun _ _ => .ok "tl",
    fun _ => .ok ⟨[], []⟩, .ok "x", fun _ => none⟩

/-- C7 amended witness: the theorem applied at four concrete environments —
read failure (500, no upstream), write failure after success (500),
swallowed trip write (still 429 with the upstream flag), and swallowed
hit-refresh write (still 200 HIT). -/
theorem c7_amended_witness :
    ((XPosts.GET envC7a ⟨some "jack", none, none⟩).1.status = 500 ∧
        hasEv isUp (XPosts.GET envC7a ⟨some "jack", none, none⟩).2 = false) ∧
      (XPosts.GET envC7b ⟨some "jack", none, none⟩).1.status = 500 ∧
      ((XPosts.GET envC7c ⟨some "jack", none, none⟩).1.status = 429 ∧
        (XPosts.GET envC7c ⟨some "jack", none, none⟩).1.upstreamFlag = true) ∧
      (XProfile.GET envC7d ⟨some "jack", none, none⟩).1 =
        ⟨200, "B", some "HIT", none, false⟩ := by
  have T := c7_store_failure_amended envC7a envC7b envC7c envC7d
    ⟨some "jack", none, none⟩ "jack" userC2 "tl" "B" rfl
  exact ⟨T.1 rfl rfl,
    T.2.1 rfl rfl rfl rfl rfl rfl rfl (by decide) rfl rfl rfl,
    T.2.2.1 rfl rfl rfl rfl rfl rfl rfl rfl,
    T.2.2.2 rfl rfl (by decide) rfl⟩

end Syco
